import Mathlib

/-
Verification development for the BangumiBot ingestion pipeline
(`src/create_graph.py`, with configuration types from `src/raw_data_reader.py`).

The Neo4j store is modelled as an explicit property graph threaded through
every operation; Python dictionaries are association lists (assignment is
modelled by prepending, so the first match of a lookup is the latest
assignment, exactly the dict semantics the code relies on); Python `set`
is a duplicate-free list; exceptions (`KeyError` from dictionary getitem,
`json.loads` decode failures) are `Except`.  Each `session.run` Cypher
query is embedded as the graph transformation it denotes: `CREATE` always
adds, `MERGE` matches the pattern first and only creates on no match, and
a `MATCH` that binds no row makes the following clauses a no-op.
-/

/-- A property value stored on a node or an edge. -/
inductive Val
  | vStr (s : String)
  | vInt (n : Int)
  | vBool (b : Bool)
  | vList (l : List String)
deriving DecidableEq

/-- A graph node: internal id, label, and properties. -/
structure Node where
  nid : Nat
  nlabel : String
  props : List (String × Val)
deriving DecidableEq

/-- A directed edge between two internal node ids, with a label and properties. -/
structure Edge where
  esrc : Nat
  edst : Nat
  elabel : String
  eprops : List (String × Val)
deriving DecidableEq

/-- The state of the Neo4j store: nodes, edges, and a fresh-id counter. -/
structure Graph where
  nodes : List Node
  edges : List Edge
  nextId : Nat
deriving DecidableEq

/-- Python dict getitem without the exception: first binding wins
(assignments prepend, so this is the latest assignment). -/
def dictLookup {α β : Type} [DecidableEq α] (key : α) : List (α × β) → Option β
  | [] => none
  | kv :: rest => if kv.1 = key then some kv.2 else dictLookup key rest

/-- Membership test for the list model of a Python set. -/
def setMem {α : Type} [DecidableEq α] (x : α) : List α → Bool
  | [] => false
  | y :: rest => if y = x then true else setMem x rest

/-- Python `set.add`. -/
def setAdd {α : Type} [DecidableEq α] (x : α) (s : List α) : List α :=
  if setMem x s then s else x :: s

/-- Does every (key, value) pair of a Cypher pattern occur among the
properties of a node or an edge? -/
def propsMatch (pat props : List (String × Val)) : Bool :=
  pat.all fun kv => dictLookup kv.1 props = some kv.2

/-- A Cypher `MATCH (n:label pattern-props)` restricted to its first hit;
ids are unique in every state this development builds, so at most one
node can match, and a `none` result means the clause binds no row. -/
def Graph.matchNode (g : Graph) (lbl : String) (pat : List (String × Val)) : Option Node :=
  g.nodes.find? fun n => n.nlabel = lbl && propsMatch pat n.props

/-- A Cypher `CREATE (:label props)`: always adds a fresh node. -/
def Graph.createNode (g : Graph) (lbl : String) (props : List (String × Val)) : Graph × Nat :=
  ({ nodes := g.nodes ++ [{ nid := g.nextId, nlabel := lbl, props := props }]
     edges := g.edges
     nextId := g.nextId + 1 }, g.nextId)

/-- A Cypher `MERGE (:label props)` on a single node: reuse the matching
node if one exists, otherwise create a node carrying exactly the pattern
properties. -/
def Graph.mergeNode (g : Graph) (lbl : String) (props : List (String × Val)) : Graph × Nat :=
  match g.matchNode lbl props with
  | some n => (g, n.nid)
  | none => g.createNode lbl props

/-- Is there an edge from `src` to `dst` with the given label whose
properties match the pattern? -/
def Graph.hasEdge (g : Graph) (src dst : Nat) (lbl : String) (pat : List (String × Val)) : Bool :=
  g.edges.any fun e => e.esrc = src && e.edst = dst && e.elabel = lbl && propsMatch pat e.eprops

/-- A Cypher `MERGE (a)-[:label props]->(b)` with both endpoints bound:
create the edge only when no matching edge exists. -/
def Graph.mergeEdge (g : Graph) (src dst : Nat) (lbl : String) (props : List (String × Val)) : Graph :=
  if g.hasEdge src dst lbl props then g
  else { g with edges := g.edges ++ [{ esrc := src, edst := dst, elabel := lbl, eprops := props }] }

/- ----------------------------------------------------------------
Static dictionaries of src/create_graph.py (module level).
---------------------------------------------------------------- -/

def CATEGORY_MAPPING : List (Int × String) :=
  [(1, "书籍"), (2, "动画"), (3, "音乐"), (4, "游戏"), (6, "三次元")]

def PERSON_TYPE_MAPPING : List (Int × String) :=
  [(1, "个人"), (2, "公司"), (3, "组合")]

def CAREER_MAPPING : List (String × String) :=
  [("producer", "制作人员"), ("writer", "作家"), ("actor", "演员"),
   ("illustrator", "绘师"), ("seiyu", "声优"), ("mangaka", "漫画家"),
   ("artist", "音乐人")]

def CHARACTER_ROLE_MAPPING : List (Int × String) :=
  [(1, "角色"), (2, "机体"), (3, "组织"), (4, "未知")]

def SUBJECT_CHARACTER_TYPE_MAPPING : List (Int × String) :=
  [(1, "主角"), (2, "配角"), (3, "客串")]

/- ----------------------------------------------------------------
Configuration loaded outside src/ (raw_data_reader.py types; the YAML
contents and the platform table come from the bangumi_common submodule,
which is not part of src/, so they are parameters of the development).
---------------------------------------------------------------- -/

namespace RawDataReader

/-- `raw_data_reader.SubjectRelation` (msgspec.Struct): one entry of the
subject-relation taxonomy. -/
structure SubjectRelation where
  en : String
  cn : String
  jp : String
  desc : String
  skip_vice_versa : Bool
deriving DecidableEq

/-- `raw_data_reader.SubjectPerson` (msgspec.Struct): one entry of the
subject-staff position taxonomy. -/
structure SubjectPerson where
  en : String
  cn : String
  jp : String
  rdf : String
  desc : String
deriving DecidableEq

end RawDataReader

/-- Modelled from the spec: the platform configuration of the
bangumi_common submodule (absent from src/) groups platform entries by
category, each entry carrying an id and a localized type label; only the
`id` and `type_cn` fields are consumed by `_insert_a_platform` and
`_insert_a_subject`. -/
structure Platform where
  id : Int
  type_cn : String
deriving DecidableEq

/-- The three configuration tables loaded at import time: the two
category-keyed taxonomy tables of raw_data_reader.py and the platform
table (category to its list of platform entries). -/
structure Config where
  SUBJECT_RELATION_CONFIG : List (Int × List (Int × RawDataReader.SubjectRelation))
  SUBJECT_PERSON_CONFIG : List (Int × List (Int × RawDataReader.SubjectPerson))
  PLATFORM_CONFIG : List (Int × List Platform)
deriving DecidableEq

/- ----------------------------------------------------------------
The seven record dataclasses of src/create_graph.py.
---------------------------------------------------------------- -/

/-- Dataclass `Subject`. `tags` is modelled as the list of tag names,
which is exactly the projection the code takes of the raw tag objects. -/
structure Subject where
  id : Int
  type : Int
  name : String
  name_cn : String
  infobox : String
  platform : Int
  summary : String
  nsfw : Bool
  date : String
  series : Bool
  tags : List String
deriving DecidableEq

/-- Dataclass `Person`. -/
structure Person where
  id : Int
  name : String
  type : Int
  infobox : String
  summary : String
  career : List String
deriving DecidableEq

/-- Dataclass `Character`. -/
structure Character where
  id : Int
  role : Int
  name : String
  infobox : String
  summary : String
deriving DecidableEq

/-- Dataclass `SubjectRelation` of create_graph.py (distinct from the
taxonomy entry of the same name in raw_data_reader.py). -/
structure SubjectRelation where
  subject_id : Int
  related_subject_id : Int
  relation_type : Int
deriving DecidableEq

/-- Dataclass `SubjectPersonRelation`. -/
structure SubjectPersonRelation where
  person_id : Int
  subject_id : Int
  position : Int
deriving DecidableEq

/-- Dataclass `SubjectCharacterRelation`. -/
structure SubjectCharacterRelation where
  character_id : Int
  subject_id : Int
  type : Int
deriving DecidableEq

/-- Dataclass `PersonCharacterRelation`. -/
structure PersonCharacterRelation where
  person_id : Int
  character_id : Int
  subject_id : Int
deriving DecidableEq

/- ----------------------------------------------------------------
Errors and logging.
---------------------------------------------------------------- -/

/-- The exceptions the embedded code can raise: dictionary getitem on a
missing key, and a json.loads failure on a malformed line. -/
inductive Err
  | keyError
  | decodeError
deriving DecidableEq

/-- The warning/error log records the claims talk about (info-level
progress messages are not modelled). -/
inductive LogEntry
  | personHasNoType (id : Int)
  | errorSubjectRelation (subject_id related_subject_id : Int)
  | errorSubjectPersonRelation (subject_id person_id : Int)
  | errorSubjectCharacterRelation (subject_id character_id : Int)
  | errorPersonCharacterRelation (person_id character_id : Int)
deriving DecidableEq

/-- Python dict getitem: `d[key]` raises `KeyError` on a missing key. -/
def dictGet {α β : Type} [DecidableEq α] (d : List (α × β)) (key : α) : Except Err β :=
  match dictLookup key d with
  | some v => .ok v
  | none => .error .keyError

/- ----------------------------------------------------------------
The BangumiDatabase state.
---------------------------------------------------------------- -/

/-- The mutable state of class `BangumiDatabase`: the four Reference
Index tables of `__init__`, plus the store state (standing in for the
driver) and the warning/error log (standing in for the logger). -/
structure BangumiDatabase where
  subject_category_mapping : List (Int × Int)
  subject_name_mapping : List (Int × String)
  person_id_set : List Int
  character_name_mapping : List (Int × String)
  graph : Graph
  log : List LogEntry
deriving DecidableEq

/-- `BangumiDatabase.__init__`: fresh empty index tables over a given
store state. -/
def BangumiDatabase.init (g : Graph) : BangumiDatabase :=
  { subject_category_mapping := []
    subject_name_mapping := []
    person_id_set := []
    character_name_mapping := []
    graph := g
    log := [] }

/-- `clear_database`: resets `person_id_set` (and only that index table)
and runs `MATCH (n) DETACH DELETE n`, emptying the store. -/
def clear_database (db : BangumiDatabase) : BangumiDatabase :=
  { db with person_id_set := []
            graph := { nodes := [], edges := [], nextId := db.graph.nextId } }

/-- `_insert_a_platform`: display name is the category label, a slash and
the platform's localized type label; the Cypher is a plain `CREATE`. -/
def _insert_a_platform (db : BangumiDatabase) (platform : Platform) (category : Int) :
    Except Err BangumiDatabase :=
  match dictGet CATEGORY_MAPPING category with
  | .error e => .error e
  | .ok catLabel =>
    let name := catLabel ++ "/" ++ platform.type_cn
    let gn := db.graph.createNode "Platform"
      [("platform_id", .vInt platform.id), ("category", .vInt category), ("name", .vStr name)]
    .ok { db with graph := gn.1 }

/-- `_insert_a_subject`: adult-flagged subjects return before touching
the index tables or the store; otherwise the subject is indexed, a
Subject node is created, and a Platform node keyed by
(platform_id, category) is merged with a BELONG_TO edge to it. -/
def _insert_a_subject (db : BangumiDatabase) (subject : Subject) :
    Except Err BangumiDatabase :=
  if subject.nsfw then .ok db
  else
    let db := { db with
      subject_category_mapping := (subject.id, subject.type) :: db.subject_category_mapping
      subject_name_mapping := (subject.id, subject.name) :: db.subject_name_mapping }
    let g1 := db.graph.createNode "Subject"
      [("subject_id", .vInt subject.id), ("name", .vStr subject.name),
       ("name_cn", .vStr subject.name_cn), ("infobox", .vStr subject.infobox),
       ("summary", .vStr subject.summary), ("date", .vStr subject.date),
       ("series", .vBool subject.series), ("tags", .vList subject.tags)]
    let g2 := g1.1.mergeNode "Platform"
      [("platform_id", .vInt subject.platform), ("category", .vInt subject.type)]
    .ok { db with graph := g2.1.mergeEdge g1.2 g2.2 "BELONG_TO" [] }

/-- `_insert_a_person`: type code 0 logs a warning and inserts nothing;
otherwise the id joins `person_id_set` (before the store call, as in the
source) and the node is created after resolving the type and career
labels, either of which can raise `KeyError`. -/
def _insert_a_person (db : BangumiDatabase) (person : Person) :
    Except Err BangumiDatabase :=
  if person.type = 0 then
    .ok { db with log := .personHasNoType person.id :: db.log }
  else
    let db := { db with person_id_set := setAdd person.id db.person_id_set }
    match dictGet PERSON_TYPE_MAPPING person.type with
    | .error e => .error e
    | .ok typeLabel =>
      match person.career.mapM (fun c => dictGet CAREER_MAPPING c) with
      | .error e => .error e
      | .ok careerLabels =>
        let gn := db.graph.createNode "Person"
          [("person_id", .vInt person.id), ("name", .vStr person.name),
           ("type", .vStr typeLabel), ("infobox", .vStr person.infobox),
           ("summary", .vStr person.summary), ("career", .vList careerLabels)]
        .ok { db with graph := gn.1 }

/-- `_insert_a_character`: the name is indexed (before the store call),
then the role label is resolved (possible `KeyError`) and the node
created. -/
def _insert_a_character (db : BangumiDatabase) (character : Character) :
    Except Err BangumiDatabase :=
  let db := { db with
    character_name_mapping := (character.id, character.name) :: db.character_name_mapping }
  match dictGet CHARACTER_ROLE_MAPPING character.role with
  | .error e => .error e
  | .ok roleLabel =>
    let gn := db.graph.createNode "Character"
      [("character_id", .vInt character.id), ("role", .vStr roleLabel),
       ("name", .vStr character.name), ("infobox", .vStr character.infobox),
       ("summary", .vStr character.summary)]
    .ok { db with graph := gn.1 }

/-- The relation-type resolution of `_insert_a_subject_relation` (lines
273 to 281): select the sub-table keyed by the related subject's
category; a type code absent from the sub-table falls back to the plain
category label (the source re-reads the category mapping for the
fallback; it necessarily yields the same category value). -/
def resolve_subject_relation_name (cfg : Config) (db : BangumiDatabase)
    (r : SubjectRelation) : Except Err String :=
  match dictGet db.subject_category_mapping r.related_subject_id with
  | .error e => .error e
  | .ok cat =>
    match dictGet cfg.SUBJECT_RELATION_CONFIG cat with
    | .error e => .error e
    | .ok category_relations =>
      match dictLookup r.relation_type category_relations with
      | none => dictGet CATEGORY_MAPPING cat
      | some entry => .ok entry.cn

/-- `_insert_a_subject_relation`: resolve the display label, then
`MATCH` both subjects and `MERGE` the typed edge. -/
def _insert_a_subject_relation (cfg : Config) (db : BangumiDatabase)
    (r : SubjectRelation) : Except Err BangumiDatabase :=
  match resolve_subject_relation_name cfg db r with
  | .error e => .error e
  | .ok relation_name =>
    match db.graph.matchNode "Subject" [("subject_id", .vInt r.subject_id)],
          db.graph.matchNode "Subject" [("subject_id", .vInt r.related_subject_id)] with
    | some s1, some s2 =>
      .ok { db with graph :=
        db.graph.mergeEdge s1.nid s2.nid "SubjectRelation" [("type", .vStr relation_name)] }
    | _, _ => .ok db

/-- The position resolution of `_insert_a_subject_person_relation`
(lines 297 to 300): the sub-table is keyed by the subject's own
category and a position code absent from it raises `KeyError`
(no fallback). -/
def resolve_subject_person_name (cfg : Config) (db : BangumiDatabase)
    (r : SubjectPersonRelation) : Except Err String :=
  match dictGet db.subject_category_mapping r.subject_id with
  | .error e => .error e
  | .ok cat =>
    match dictGet cfg.SUBJECT_PERSON_CONFIG cat with
    | .error e => .error e
    | .ok category_relations =>
      match dictGet category_relations r.position with
      | .error e => .error e
      | .ok entry => .ok entry.cn

/-- `_insert_a_subject_person_relation`: resolve the position label,
then `MATCH` subject and person and `MERGE` the typed edge. -/
def _insert_a_subject_person_relation (cfg : Config) (db : BangumiDatabase)
    (r : SubjectPersonRelation) : Except Err BangumiDatabase :=
  match resolve_subject_person_name cfg db r with
  | .error e => .error e
  | .ok relation_name =>
    match db.graph.matchNode "Subject" [("subject_id", .vInt r.subject_id)],
          db.graph.matchNode "Person" [("person_id", .vInt r.person_id)] with
    | some s, some p =>
      .ok { db with graph :=
        db.graph.mergeEdge s.nid p.nid "SubjectPersonRelation" [("type", .vStr relation_name)] }
    | _, _ => .ok db

/-- `_insert_a_subject_character_relation`: resolve the appearance-type
label from the fixed dictionary, then `MATCH` character and subject and
`MERGE` the AppearsIn edge. -/
def _insert_a_subject_character_relation (db : BangumiDatabase)
    (r : SubjectCharacterRelation) : Except Err BangumiDatabase :=
  match dictGet SUBJECT_CHARACTER_TYPE_MAPPING r.type with
  | .error e => .error e
  | .ok typeLabel =>
    match db.graph.matchNode "Character" [("character_id", .vInt r.character_id)],
          db.graph.matchNode "Subject" [("subject_id", .vInt r.subject_id)] with
    | some c, some s =>
      .ok { db with graph :=
        db.graph.mergeEdge c.nid s.nid "AppearsIn" [("type", .vStr typeLabel)] }
    | _, _ => .ok db

/-- The role property written by the Cypher of
`_insert_a_person_character_relation`.  The query text contains the
string literal "$character_name in $subject_name"; Cypher never
substitutes parameters inside a string literal, so the literal is
stored verbatim and the `character_name` / `subject_name` parameters
passed to `session.run` are never consumed.  The function keeps both
names as arguments to mirror the parameters the source computes and
passes. -/
def rolePerformanceRole (character_name subject_name : String) : String :=
  "$character_name in $subject_name"

/-- The path merge `MERGE (p)-[:Played]->(r:RolePerformance ...)` with
`p` already bound: reuse a RolePerformance node carrying the role value
that is reachable from `p` over a Played edge, otherwise create the
node and the edge. -/
def Graph.mergePlayedRole (g : Graph) (pid : Nat) (role : String) : Graph × Nat :=
  match g.nodes.find? (fun r =>
      r.nlabel = "RolePerformance" && propsMatch [("role", .vStr role)] r.props
        && g.edges.any fun e => e.esrc = pid && e.edst = r.nid && e.elabel = "Played") with
  | some r => (g, r.nid)
  | none =>
    let gn := g.createNode "RolePerformance" [("role", .vStr role)]
    (gn.1.mergeEdge pid gn.2 "Played" [], gn.2)

/-- `_insert_a_person_character_relation`: the character and subject
names are fetched from the index tables (possible `KeyError`) and passed
as parameters, then the Cypher matches the three endpoints, merges the
Played path to the RolePerformance node, and merges its AsCharacter and
In edges. -/
def _insert_a_person_character_relation (db : BangumiDatabase)
    (r : PersonCharacterRelation) : Except Err BangumiDatabase :=
  match dictGet db.character_name_mapping r.character_id with
  | .error e => .error e
  | .ok character_name =>
    match dictGet db.subject_name_mapping r.subject_id with
    | .error e => .error e
    | .ok subject_name =>
      match db.graph.matchNode "Person" [("person_id", .vInt r.person_id)],
            db.graph.matchNode "Character" [("character_id", .vInt r.character_id)],
            db.graph.matchNode "Subject" [("subject_id", .vInt r.subject_id)] with
      | some p, some c, some s =>
        let gr := db.graph.mergePlayedRole p.nid
          (rolePerformanceRole character_name subject_name)
        let g2 := gr.1.mergeEdge gr.2 c.nid "AsCharacter" []
        .ok { db with graph := g2.mergeEdge gr.2 s.nid "In" [] }
      | _, _, _ => .ok db

/- ----------------------------------------------------------------
The stage loops of initilize_database.
---------------------------------------------------------------- -/

/-- `if LIMIT is not None and cnt >= LIMIT: break`. -/
def limitReached (lim : Option Nat) (cnt : Nat) : Bool :=
  match lim with
  | some n => n ≤ cnt
  | none => false

/-- One entity-stage file loop: each line is decoded (a malformed line
raises outside any per-line handler), the record is inserted with no
per-record error guard, the counter advances and the optional cap is
checked.  Lines are the already-split file contents, `none` standing
for a line json.loads rejects. -/
def entityLoop {R : Type} (insert : BangumiDatabase → R → Except Err BangumiDatabase)
    (db : BangumiDatabase) (cnt : Nat) (lim : Option Nat) :
    List (Option R) → Except Err BangumiDatabase
  | [] => .ok db
  | none :: _ => .error .decodeError
  | some r :: rest =>
    match insert db r with
    | .error e => .error e
    | .ok db1 =>
      if limitReached lim (cnt + 1) then .ok db1
      else entityLoop insert db1 (cnt + 1) lim rest

/-- The try/except body of a relation stage: a failing insert is caught
and logged with the offending id pair, and the loop goes on. -/
def relationProcess {R : Type} (insert : BangumiDatabase → R → Except Err BangumiDatabase)
    (logOf : R → LogEntry) (db : BangumiDatabase) (r : R) : BangumiDatabase :=
  match insert db r with
  | .ok db1 => db1
  | .error _ => { db with log := logOf r :: db.log }

/-- One relation-stage file loop: decode (malformed lines raise outside
any handler), filter through the Reference Index, guard the insert per
record, and only count filter-passing records toward the optional cap. -/
def relationLoop {R : Type} (passes : BangumiDatabase → R → Bool)
    (insert : BangumiDatabase → R → Except Err BangumiDatabase)
    (logOf : R → LogEntry)
    (db : BangumiDatabase) (cnt : Nat) (lim : Option Nat) :
    List (Option R) → Except Err BangumiDatabase
  | [] => .ok db
  | none :: _ => .error .decodeError
  | some r :: rest =>
    if passes db r then
      let db1 := relationProcess insert logOf db r
      if limitReached lim (cnt + 1) then .ok db1
      else relationLoop passes insert logOf db1 (cnt + 1) lim rest
    else relationLoop passes insert logOf db cnt lim rest

/-- The Reference Index filter of the subject-relation stage (lines 436
to 440). -/
def subjectRelationPasses (db : BangumiDatabase) (r : SubjectRelation) : Bool :=
  (dictLookup r.subject_id db.subject_category_mapping).isSome
    && (dictLookup r.related_subject_id db.subject_category_mapping).isSome

/-- The Reference Index filter of the subject-person stage (lines 472
to 475). -/
def subjectPersonPasses (db : BangumiDatabase) (r : SubjectPersonRelation) : Bool :=
  (dictLookup r.subject_id db.subject_category_mapping).isSome
    && setMem r.person_id db.person_id_set

/-- The Reference Index filter of the subject-character stage (lines 504
to 507). -/
def subjectCharacterPasses (db : BangumiDatabase) (r : SubjectCharacterRelation) : Bool :=
  (dictLookup r.subject_id db.subject_category_mapping).isSome
    && (dictLookup r.character_id db.character_name_mapping).isSome

/-- The Reference Index filter of the person-character stage (lines 535
to 539). -/
def personCharacterPasses (db : BangumiDatabase) (r : PersonCharacterRelation) : Bool :=
  setMem r.person_id db.person_id_set
    && (dictLookup r.character_id db.character_name_mapping).isSome
    && (dictLookup r.subject_id db.subject_name_mapping).isSome

/-- The error-log line of the subject-relation stage (id pair). -/
def subjectRelationLogEntry (r : SubjectRelation) : LogEntry :=
  .errorSubjectRelation r.subject_id r.related_subject_id

/-- The error-log line of the subject-person stage (id pair). -/
def subjectPersonLogEntry (r : SubjectPersonRelation) : LogEntry :=
  .errorSubjectPersonRelation r.subject_id r.person_id

/-- The error-log line of the subject-character stage (id pair). -/
def subjectCharacterLogEntry (r : SubjectCharacterRelation) : LogEntry :=
  .errorSubjectCharacterRelation r.subject_id r.character_id

/-- The error-log line of the person-character stage (id pair). -/
def personCharacterLogEntry (r : PersonCharacterRelation) : LogEntry :=
  .errorPersonCharacterRelation r.person_id r.character_id

/-- The platform stage: both nested loops over PLATFORM_CONFIG. -/
def insertPlatforms (cfg : Config) (db : BangumiDatabase) : Except Err BangumiDatabase :=
  cfg.PLATFORM_CONFIG.foldlM
    (fun acc ci => ci.2.foldlM (fun acc2 p => _insert_a_platform acc2 p ci.1) acc) db

/-- The seven jsonlines files of the data folder, already split into
lines; `none` is a line json.loads rejects. -/
structure RawData where
  subject : List (Option Subject)
  person : List (Option Person)
  character : List (Option Character)
  subject_relations : List (Option SubjectRelation)
  subject_persons : List (Option SubjectPersonRelation)
  subject_characters : List (Option SubjectCharacterRelation)
  person_characters : List (Option PersonCharacterRelation)
deriving DecidableEq

/-- `_initliaze_constraints` (source spelling): three SHOW CONSTRAINTS
queries each followed by a conditional CREATE CONSTRAINT — store-metadata
round-trips only.  The graph model carries no constraint state and its
store operations are total, so the function returns the state unchanged;
it is typed in Except because its caller binds it with no handler, so any
error it produced would propagate out of `initilize_database`. -/
def _initliaze_constraints (db : BangumiDatabase) : Except Err BangumiDatabase :=
  .ok db

/-- `initilize_database` (source spelling): clear, platforms, constraint
setup, then the three entity stages and the four relation stages in
order.  `ENTITY_LIMIT` and `RELATION_LIMIT` are the two optional record
caps. -/
def initilize_database (cfg : Config) (entity_limit relation_limit : Option Nat)
    (db : BangumiDatabase) (data : RawData) : Except Err BangumiDatabase := do
  let db := clear_database db
  let db ← insertPlatforms cfg db
  let db ← _initliaze_constraints db
  let db ← entityLoop _insert_a_subject db 0 entity_limit data.subject
  let db ← entityLoop _insert_a_person db 0 entity_limit data.person
  let db ← entityLoop _insert_a_character db 0 entity_limit data.character
  let db ← relationLoop subjectRelationPasses (_insert_a_subject_relation cfg)
    subjectRelationLogEntry db 0 relation_limit data.subject_relations
  let db ← relationLoop subjectPersonPasses (_insert_a_subject_person_relation cfg)
    subjectPersonLogEntry db 0 relation_limit data.subject_persons
  let db ← relationLoop subjectCharacterPasses _insert_a_subject_character_relation
    subjectCharacterLogEntry db 0 relation_limit data.subject_characters
  let db ← relationLoop personCharacterPasses _insert_a_person_character_relation
    personCharacterLogEntry db 0 relation_limit data.person_characters
  .ok db

/-- Extract the success state of a run, with a fallback for the error
case (used only to state concrete evaluation theorems; the theorems
also assert success separately). -/
def okOr (dflt : BangumiDatabase) : Except Err BangumiDatabase → BangumiDatabase
  | .ok db => db
  | .error _ => dflt

/-- Number of nodes of the store carrying a given label. -/
def countLabel (g : Graph) (lbl : String) : Nat :=
  (g.nodes.filter fun n => n.nlabel = lbl).length

/- ----------------------------------------------------------------
General lemmas about the stage loops.
---------------------------------------------------------------- -/

/-- A relation record that fails the Reference Index filter is skipped:
the loop continues on the remaining lines from an unchanged state. -/
theorem relationLoop_skip {R : Type} {passes : BangumiDatabase → R → Bool}
    {insert : BangumiDatabase → R → Except Err BangumiDatabase}
    {logOf : R → LogEntry} {db : BangumiDatabase} {cnt : Nat} {lim : Option Nat}
    {r : R} {rest : List (Option R)} (h : passes db r = false) :
    relationLoop passes insert logOf db cnt lim (some r :: rest)
      = relationLoop passes insert logOf db cnt lim rest := by
  simp [relationLoop, h]

/-- A failing insert inside a relation stage is caught: the error is
logged with the record's ids and the loop continues on the remaining
lines. -/
theorem relationLoop_caught {R : Type} {passes : BangumiDatabase → R → Bool}
    {insert : BangumiDatabase → R → Except Err BangumiDatabase}
    {logOf : R → LogEntry} {db : BangumiDatabase} {cnt : Nat} {lim : Option Nat}
    {e : Err} {r : R} {rest : List (Option R)}
    (hp : passes db r = true) (he : insert db r = .error e)
    (hl : limitReached lim (cnt + 1) = false) :
    relationLoop passes insert logOf db cnt lim (some r :: rest)
      = relationLoop passes insert logOf { db with log := logOf r :: db.log }
          (cnt + 1) lim rest := by
  simp [relationLoop, hp, relationProcess, he, hl]

/-- A failing insert inside an entity stage is not guarded: the stage
aborts with the error, leaving the remaining lines unprocessed. -/
theorem entityLoop_abort {R : Type} {insert : BangumiDatabase → R → Except Err BangumiDatabase}
    {db : BangumiDatabase} {cnt : Nat} {lim : Option Nat} {e : Err} {r : R}
    {rest : List (Option R)} (he : insert db r = .error e) :
    entityLoop insert db cnt lim (some r :: rest) = .error e := by
  simp [entityLoop, he]

/- ----------------------------------------------------------------
Concrete sample data for witnesses and counterexamples.
---------------------------------------------------------------- -/

def graph0 : Graph := { nodes := [], edges := [], nextId := 0 }

def sample_db0 : BangumiDatabase := BangumiDatabase.init graph0

def sampleSubjectX : Subject :=
  { id := 10, type := 2, name := "X", name_cn := "", infobox := "", platform := 1,
    summary := "", nsfw := false, date := "", series := false, tags := [] }

def sampleSubjectY : Subject := { sampleSubjectX with id := 20, name := "Y" }

def sampleNsfwSubject : Subject :=
  { sampleSubjectX with id := 5, name := "N", nsfw := true }

def samplePerson : Person :=
  { id := 1, name := "P", type := 1, infobox := "", summary := "", career := [] }

def sampleTypeZeroPerson : Person := { samplePerson with id := 7, type := 0 }

def sampleBadTypePerson : Person := { samplePerson with id := 8, type := 5 }

def sampleCharacterA : Character :=
  { id := 1, role := 1, name := "A", infobox := "", summary := "" }

def sampleCharacterB : Character :=
  { id := 2, role := 1, name := "B", infobox := "", summary := "" }

def emptyConfig : Config :=
  { SUBJECT_RELATION_CONFIG := [], SUBJECT_PERSON_CONFIG := [], PLATFORM_CONFIG := [] }

def emptyRawData : RawData :=
  { subject := [], person := [], character := [], subject_relations := [],
    subject_persons := [], subject_characters := [], person_characters := [] }

def sampleRelEntry : RawDataReader.SubjectRelation :=
  { en := "sequel", cn := "续集", jp := "", desc := "", skip_vice_versa := false }

def samplePosEntry : RawDataReader.SubjectPerson :=
  { en := "director", cn := "导演", jp := "", rdf := "", desc := "" }

def sampleConfig : Config :=
  { SUBJECT_RELATION_CONFIG := [(2, [(1, sampleRelEntry)])]
    SUBJECT_PERSON_CONFIG := [(2, [(3, samplePosEntry)])]
    PLATFORM_CONFIG := [(2, [{ id := 1, type_cn := "TV" }])] }

/-- State after inserting sampleSubjectX into a fresh instance. -/
def sample_db1 : BangumiDatabase := okOr sample_db0 (_insert_a_subject sample_db0 sampleSubjectX)

/-- State after additionally inserting samplePerson. -/
def sample_db2 : BangumiDatabase := okOr sample_db1 (_insert_a_person sample_db1 samplePerson)

/-- State after additionally inserting sampleCharacterA. -/
def sample_db3 : BangumiDatabase := okOr sample_db2 (_insert_a_character sample_db2 sampleCharacterA)

deriving instance DecidableEq for Except

/- ----------------------------------------------------------------
Claim C2.
---------------------------------------------------------------- -/

/-- C2 (counterexample): the claim says that after the clear stage all
four Reference Index tables are empty.  On a BangumiDatabase instance
that already ingested sampleSubjectX, a complete ingestion pass over
empty data files ends in exactly the post-clear state, and its
subject-category table still holds the entry of the previous pass. -/
theorem C2_counterexample_clear_stage_not_full_reset :
    (_insert_a_subject sample_db0 sampleSubjectX).isOk = true ∧
    initilize_database emptyConfig none none sample_db1 emptyRawData
      = .ok (clear_database sample_db1) ∧
    (clear_database sample_db1).subject_category_mapping = [(10, 2)] ∧
    (clear_database sample_db1).subject_category_mapping ≠ [] := by
  exact ⟨by decide, by decide, by decide, by decide⟩

/-- C2 (amended): after the clear stage, the person-id set is empty and
the store is emptied, but the subject-category, subject-name and
character-name tables are left exactly as they were; all four tables
are empty at the start of a pass only because a freshly constructed
BangumiDatabase instance starts with empty tables. -/
theorem C2_clear_database_resets_person_ids_only (db : BangumiDatabase) :
    (clear_database db).person_id_set = [] ∧
    (clear_database db).graph.nodes = [] ∧
    (clear_database db).graph.edges = [] ∧
    (clear_database db).subject_category_mapping = db.subject_category_mapping ∧
    (clear_database db).subject_name_mapping = db.subject_name_mapping ∧
    (clear_database db).character_name_mapping = db.character_name_mapping ∧
    (∀ g : Graph, (BangumiDatabase.init g).subject_category_mapping = []
      ∧ (BangumiDatabase.init g).subject_name_mapping = []
      ∧ (BangumiDatabase.init g).person_id_set = []
      ∧ (BangumiDatabase.init g).character_name_mapping = []) :=
  ⟨rfl, rfl, rfl, rfl, rfl, rfl, fun _ => ⟨rfl, rfl, rfl, rfl⟩⟩

/- ----------------------------------------------------------------
Claim C8.
---------------------------------------------------------------- -/

/-- C8: in every stage, entity and relation alike, a line that is not
valid JSON (modelled as a `none` line) is decoded outside any per-line
error handler, so the whole file read for that stage aborts with the
decode error and no further line of the file is processed. -/
theorem C8_malformed_json_line_aborts_the_stage :
    (∀ (db : BangumiDatabase) (cnt : Nat) (lim : Option Nat) (rest : List (Option Subject)),
        entityLoop _insert_a_subject db cnt lim (none :: rest) = .error .decodeError) ∧
    (∀ db cnt lim (rest : List (Option Person)),
        entityLoop _insert_a_person db cnt lim (none :: rest) = .error .decodeError) ∧
    (∀ db cnt lim (rest : List (Option Character)),
        entityLoop _insert_a_character db cnt lim (none :: rest) = .error .decodeError) ∧
    (∀ cfg db cnt lim (rest : List (Option SubjectRelation)),
        relationLoop subjectRelationPasses (_insert_a_subject_relation cfg)
          subjectRelationLogEntry db cnt lim (none :: rest) = .error .decodeError) ∧
    (∀ cfg db cnt lim (rest : List (Option SubjectPersonRelation)),
        relationLoop subjectPersonPasses (_insert_a_subject_person_relation cfg)
          subjectPersonLogEntry db cnt lim (none :: rest) = .error .decodeError) ∧
    (∀ db cnt lim (rest : List (Option SubjectCharacterRelation)),
        relationLoop subjectCharacterPasses _insert_a_subject_character_relation
          subjectCharacterLogEntry db cnt lim (none :: rest) = .error .decodeError) ∧
    (∀ db cnt lim (rest : List (Option PersonCharacterRelation)),
        relationLoop personCharacterPasses _insert_a_person_character_relation
          personCharacterLogEntry db cnt lim (none :: rest) = .error .decodeError) :=
  ⟨fun _ _ _ _ => rfl, fun _ _ _ _ => rfl, fun _ _ _ _ => rfl,
   fun _ _ _ _ _ => rfl, fun _ _ _ _ _ => rfl, fun _ _ _ _ => rfl, fun _ _ _ _ => rfl⟩

/- ----------------------------------------------------------------
Claim C5.
---------------------------------------------------------------- -/

/-- C5: a relation record of any of the four kinds that references an id
absent from the relevant Reference Index table(s) is dropped before any
store operation: the loop proceeds to the next line from a state that is
unchanged in every component, so no node or edge is written, nothing is
logged, and no error is raised. -/
theorem C5_unreferenced_relation_records_are_silently_filtered :
    (∀ cfg db cnt lim (r : SubjectRelation) rest, subjectRelationPasses db r = false →
        relationLoop subjectRelationPasses (_insert_a_subject_relation cfg)
            subjectRelationLogEntry db cnt lim (some r :: rest)
          = relationLoop subjectRelationPasses (_insert_a_subject_relation cfg)
              subjectRelationLogEntry db cnt lim rest) ∧
    (∀ cfg db cnt lim (r : SubjectPersonRelation) rest, subjectPersonPasses db r = false →
        relationLoop subjectPersonPasses (_insert_a_subject_person_relation cfg)
            subjectPersonLogEntry db cnt lim (some r :: rest)
          = relationLoop subjectPersonPasses (_insert_a_subject_person_relation cfg)
              subjectPersonLogEntry db cnt lim rest) ∧
    (∀ db cnt lim (r : SubjectCharacterRelation) rest, subjectCharacterPasses db r = false →
        relationLoop subjectCharacterPasses _insert_a_subject_character_relation
            subjectCharacterLogEntry db cnt lim (some r :: rest)
          = relationLoop subjectCharacterPasses _insert_a_subject_character_relation
              subjectCharacterLogEntry db cnt lim rest) ∧
    (∀ db cnt lim (r : PersonCharacterRelation) rest, personCharacterPasses db r = false →
        relationLoop personCharacterPasses _insert_a_person_character_relation
            personCharacterLogEntry db cnt lim (some r :: rest)
          = relationLoop personCharacterPasses _insert_a_person_character_relation
              personCharacterLogEntry db cnt lim rest) :=
  ⟨fun _ _ _ _ _ _ h => relationLoop_skip h,
   fun _ _ _ _ _ _ h => relationLoop_skip h,
   fun _ _ _ _ _ h => relationLoop_skip h,
   fun _ _ _ _ _ h => relationLoop_skip h⟩

/-- Witness for C5 on a fresh instance whose Reference Index is empty:
each of the four filters rejects a concrete record and the loop equation
of the claim holds at it. -/
theorem C5_witness :
    subjectRelationPasses sample_db0 { subject_id := 10, related_subject_id := 20, relation_type := 1 } = false ∧
    relationLoop subjectRelationPasses (_insert_a_subject_relation emptyConfig)
        subjectRelationLogEntry sample_db0 0 none
        [some { subject_id := 10, related_subject_id := 20, relation_type := 1 }]
      = relationLoop subjectRelationPasses (_insert_a_subject_relation emptyConfig)
          subjectRelationLogEntry sample_db0 0 none [] ∧
    subjectPersonPasses sample_db0 { person_id := 1, subject_id := 10, position := 3 } = false ∧
    relationLoop subjectPersonPasses (_insert_a_subject_person_relation emptyConfig)
        subjectPersonLogEntry sample_db0 0 none
        [some { person_id := 1, subject_id := 10, position := 3 }]
      = relationLoop subjectPersonPasses (_insert_a_subject_person_relation emptyConfig)
          subjectPersonLogEntry sample_db0 0 none [] ∧
    subjectCharacterPasses sample_db0 { character_id := 1, subject_id := 10, type := 1 } = false ∧
    relationLoop subjectCharacterPasses _insert_a_subject_character_relation
        subjectCharacterLogEntry sample_db0 0 none
        [some { character_id := 1, subject_id := 10, type := 1 }]
      = relationLoop subjectCharacterPasses _insert_a_subject_character_relation
          subjectCharacterLogEntry sample_db0 0 none [] ∧
    personCharacterPasses sample_db0 { person_id := 1, character_id := 1, subject_id := 10 } = false ∧
    relationLoop personCharacterPasses _insert_a_person_character_relation
        personCharacterLogEntry sample_db0 0 none
        [some { person_id := 1, character_id := 1, subject_id := 10 }]
      = relationLoop personCharacterPasses _insert_a_person_character_relation
          personCharacterLogEntry sample_db0 0 none [] :=
  ⟨by decide,
   C5_unreferenced_relation_records_are_silently_filtered.1 emptyConfig sample_db0 0 none _ [] (by decide),
   by decide,
   C5_unreferenced_relation_records_are_silently_filtered.2.1 emptyConfig sample_db0 0 none _ [] (by decide),
   by decide,
   C5_unreferenced_relation_records_are_silently_filtered.2.2.1 sample_db0 0 none _ [] (by decide),
   by decide,
   C5_unreferenced_relation_records_are_silently_filtered.2.2.2 sample_db0 0 none _ [] (by decide)⟩

/- ----------------------------------------------------------------
Claim C7.
---------------------------------------------------------------- -/

/-- Sample configuration whose only platform entry sits under category 5,
which CATEGORY_MAPPING does not map. -/
def sample_badPlatformConfig : Config :=
  { SUBJECT_RELATION_CONFIG := [], SUBJECT_PERSON_CONFIG := []
    PLATFORM_CONFIG := [(5, [{ id := 1, type_cn := "TV" }])] }

/-- Sample data files whose person file holds one person with unmapped
type code 5. -/
def sample_badPersonData : RawData :=
  { emptyRawData with person := [some sampleBadTypePerson] }

/-- `initilize_database` is definitionally the unguarded Except-bind
chain of its stages: clear, platforms, constraint setup, the three
entity loops and the four relation loops, in source order.  No handler
sits between any stage and the caller, so an error anywhere in the
chain is the run's result. -/
theorem initilize_database_stages (cfg : Config) (el rl : Option Nat)
    (db : BangumiDatabase) (data : RawData) :
    initilize_database cfg el rl db data =
      Except.bind (insertPlatforms cfg (clear_database db)) (fun d1 =>
      Except.bind (_initliaze_constraints d1) (fun d2 =>
      Except.bind (entityLoop _insert_a_subject d2 0 el data.subject) (fun d3 =>
      Except.bind (entityLoop _insert_a_person d3 0 el data.person) (fun d4 =>
      Except.bind (entityLoop _insert_a_character d4 0 el data.character) (fun d5 =>
      Except.bind (relationLoop subjectRelationPasses (_insert_a_subject_relation cfg)
          subjectRelationLogEntry d5 0 rl data.subject_relations) (fun d6 =>
      Except.bind (relationLoop subjectPersonPasses (_insert_a_subject_person_relation cfg)
          subjectPersonLogEntry d6 0 rl data.subject_persons) (fun d7 =>
      Except.bind (relationLoop subjectCharacterPasses _insert_a_subject_character_relation
          subjectCharacterLogEntry d7 0 rl data.subject_characters) (fun d8 =>
      Except.bind (relationLoop personCharacterPasses _insert_a_person_character_relation
          personCharacterLogEntry d8 0 rl data.person_characters) (fun d9 =>
      .ok d9))))))))) := rfl

/-- C7: a per-record failure raised while inserting a relation record —
whatever error the insert produces — is caught, logged with the
offending id pair, and the loop continues with the next record; the
same kind of failure raised while inserting an entity record or during
platform or constraint setup is not caught and aborts the run.  Shown
generically for any relation or entity insert, concretely for the
person and character loaders and for three relation kinds whose inserts
can fail on a resolver lookup, and for the platform loader (whose
CATEGORY_MAPPING lookup can fail and whose loop has no handler).  The
decomposition of initilize_database into an unguarded Except-bind
chain, together with bind error propagation, ties every stage error —
platform, constraint setup, entity or relation stage alike — to the
whole run aborting; the platform-stage and person-stage abort
corollaries state this concretely. -/
theorem C7_relation_errors_caught_entity_errors_abort :
    (∀ (R : Type) (passes : BangumiDatabase → R → Bool)
        (insert : BangumiDatabase → R → Except Err BangumiDatabase)
        (logOf : R → LogEntry) db cnt lim e (r : R) rest,
        passes db r = true → insert db r = .error e → limitReached lim (cnt + 1) = false →
        relationLoop passes insert logOf db cnt lim (some r :: rest)
          = relationLoop passes insert logOf { db with log := logOf r :: db.log }
              (cnt + 1) lim rest) ∧
    (∀ (R : Type) (insert : BangumiDatabase → R → Except Err BangumiDatabase)
        db cnt lim e (r : R) rest,
        insert db r = .error e → entityLoop insert db cnt lim (some r :: rest) = .error e) ∧
    (∀ cfg db cnt lim e (r : SubjectRelation) rest,
        subjectRelationPasses db r = true →
        _insert_a_subject_relation cfg db r = .error e →
        limitReached lim (cnt + 1) = false →
        relationLoop subjectRelationPasses (_insert_a_subject_relation cfg)
            subjectRelationLogEntry db cnt lim (some r :: rest)
          = relationLoop subjectRelationPasses (_insert_a_subject_relation cfg)
              subjectRelationLogEntry { db with log := subjectRelationLogEntry r :: db.log }
              (cnt + 1) lim rest) ∧
    (∀ cfg db cnt lim e (r : SubjectPersonRelation) rest,
        subjectPersonPasses db r = true →
        _insert_a_subject_person_relation cfg db r = .error e →
        limitReached lim (cnt + 1) = false →
        relationLoop subjectPersonPasses (_insert_a_subject_person_relation cfg)
            subjectPersonLogEntry db cnt lim (some r :: rest)
          = relationLoop subjectPersonPasses (_insert_a_subject_person_relation cfg)
              subjectPersonLogEntry { db with log := subjectPersonLogEntry r :: db.log }
              (cnt + 1) lim rest) ∧
    (∀ db cnt lim e (r : SubjectCharacterRelation) rest,
        subjectCharacterPasses db r = true →
        _insert_a_subject_character_relation db r = .error e →
        limitReached lim (cnt + 1) = false →
        relationLoop subjectCharacterPasses _insert_a_subject_character_relation
            subjectCharacterLogEntry db cnt lim (some r :: rest)
          = relationLoop subjectCharacterPasses _insert_a_subject_character_relation
              subjectCharacterLogEntry { db with log := subjectCharacterLogEntry r :: db.log }
              (cnt + 1) lim rest) ∧
    (∀ db cnt lim e (p : Person) rest, _insert_a_person db p = .error e →
        entityLoop _insert_a_person db cnt lim (some p :: rest) = .error e) ∧
    (∀ db cnt lim e (c : Character) rest, _insert_a_character db c = .error e →
        entityLoop _insert_a_character db cnt lim (some c :: rest) = .error e) ∧
    (∀ db (p : Platform) (cat : Int), dictLookup cat CATEGORY_MAPPING = none →
        _insert_a_platform db p cat = .error .keyError) ∧
    (∀ (cfg : Config) db (cat : Int) (p : Platform) ps rest e,
        cfg.PLATFORM_CONFIG = (cat, p :: ps) :: rest →
        _insert_a_platform db p cat = .error e →
        insertPlatforms cfg db = .error e) ∧
    (∀ cfg el rl (db : BangumiDatabase) (data : RawData),
        initilize_database cfg el rl db data =
          Except.bind (insertPlatforms cfg (clear_database db)) (fun d1 =>
          Except.bind (_initliaze_constraints d1) (fun d2 =>
          Except.bind (entityLoop _insert_a_subject d2 0 el data.subject) (fun d3 =>
          Except.bind (entityLoop _insert_a_person d3 0 el data.person) (fun d4 =>
          Except.bind (entityLoop _insert_a_character d4 0 el data.character) (fun d5 =>
          Except.bind (relationLoop subjectRelationPasses (_insert_a_subject_relation cfg)
              subjectRelationLogEntry d5 0 rl data.subject_relations) (fun d6 =>
          Except.bind (relationLoop subjectPersonPasses (_insert_a_subject_person_relation cfg)
              subjectPersonLogEntry d6 0 rl data.subject_persons) (fun d7 =>
          Except.bind (relationLoop subjectCharacterPasses _insert_a_subject_character_relation
              subjectCharacterLogEntry d7 0 rl data.subject_characters) (fun d8 =>
          Except.bind (relationLoop personCharacterPasses _insert_a_person_character_relation
              personCharacterLogEntry d8 0 rl data.person_characters) (fun d9 =>
          .ok d9)))))))))) ∧
    (∀ (e : Err) (x : Except Err BangumiDatabase)
        (f : BangumiDatabase → Except Err BangumiDatabase),
        x = .error e → Except.bind x f = .error e) ∧
    (∀ cfg el rl (db : BangumiDatabase) (data : RawData) e,
        insertPlatforms cfg (clear_database db) = .error e →
        initilize_database cfg el rl db data = .error e) ∧
    (∀ cfg el rl (db : BangumiDatabase) (data : RawData) e (d1 d2 d3 : BangumiDatabase),
        insertPlatforms cfg (clear_database db) = .ok d1 →
        _initliaze_constraints d1 = .ok d2 →
        entityLoop _insert_a_subject d2 0 el data.subject = .ok d3 →
        entityLoop _insert_a_person d3 0 el data.person = .error e →
        initilize_database cfg el rl db data = .error e) := by
  refine ⟨?_, ?_, ?_, ?_, ?_, ?_, ?_, ?_, ?_, ?_, ?_, ?_, ?_⟩
  · intro R passes insert logOf db cnt lim e r rest hp he hl
    exact relationLoop_caught hp he hl
  · intro R insert db cnt lim e r rest he
    exact entityLoop_abort he
  · intro cfg db cnt lim e r rest hp he hl
    exact relationLoop_caught hp he hl
  · intro cfg db cnt lim e r rest hp he hl
    exact relationLoop_caught hp he hl
  · intro db cnt lim e r rest hp he hl
    exact relationLoop_caught hp he hl
  · intro db cnt lim e p rest he
    exact entityLoop_abort he
  · intro db cnt lim e c rest he
    exact entityLoop_abort he
  · intro db p cat h
    simp [_insert_a_platform, dictGet, h]
  · intro cfg db cat p ps rest e hcfg hins
    unfold insertPlatforms
    rw [hcfg]
    simp only [List.foldlM, hins]
    rfl
  · intro cfg el rl db data
    exact initilize_database_stages cfg el rl db data
  · intro e x f h
    subst h
    rfl
  · intro cfg el rl db data e h
    rw [initilize_database_stages, h]
    rfl
  · intro cfg el rl db data e d1 d2 d3 h1 h2 h3 h4
    rw [initilize_database_stages, h1]
    simp only [Except.bind, h2, h3, h4]

/-- Witness for C7: on a state that has sampleSubjectX indexed, the
subject-relation record (10, 10, 1) passes the filter but its insert
fails on the empty taxonomy configuration; the loop logs and continues.
The person with unmapped type code 5 makes the person loader abort its
stage, and the whole run; the platform entry under unmapped category 5
makes the platform loader fail, and the whole run. -/
theorem C7_witness :
    subjectRelationPasses sample_db1 { subject_id := 10, related_subject_id := 10, relation_type := 1 } = true ∧
    _insert_a_subject_relation emptyConfig sample_db1
        { subject_id := 10, related_subject_id := 10, relation_type := 1 } = .error .keyError ∧
    limitReached none 1 = false ∧
    relationLoop subjectRelationPasses (_insert_a_subject_relation emptyConfig)
        subjectRelationLogEntry sample_db1 0 none
        [some { subject_id := 10, related_subject_id := 10, relation_type := 1 }]
      = relationLoop subjectRelationPasses (_insert_a_subject_relation emptyConfig)
          subjectRelationLogEntry
          { sample_db1 with log :=
              (subjectRelationLogEntry { subject_id := 10, related_subject_id := 10, relation_type := 1 }) :: sample_db1.log }
          1 none [] ∧
    _insert_a_person sample_db0 sampleBadTypePerson = .error .keyError ∧
    entityLoop _insert_a_person sample_db0 0 none [some sampleBadTypePerson] = .error .keyError ∧
    dictLookup (5 : Int) CATEGORY_MAPPING = none ∧
    _insert_a_platform sample_db0 { id := 1, type_cn := "TV" } 5 = .error .keyError ∧
    insertPlatforms sample_badPlatformConfig (clear_database sample_db0) = .error .keyError ∧
    initilize_database sample_badPlatformConfig none none sample_db0 emptyRawData
      = .error .keyError ∧
    initilize_database emptyConfig none none sample_db0 sample_badPersonData
      = .error .keyError :=
  ⟨by decide, by decide, by decide,
   C7_relation_errors_caught_entity_errors_abort.2.2.1 emptyConfig sample_db1 0 none .keyError
     { subject_id := 10, related_subject_id := 10, relation_type := 1 } []
     (by decide) (by decide) (by decide),
   by decide,
   C7_relation_errors_caught_entity_errors_abort.2.2.2.2.2.1 sample_db0 0 none .keyError
     sampleBadTypePerson [] (by decide),
   by decide,
   C7_relation_errors_caught_entity_errors_abort.2.2.2.2.2.2.2.1 sample_db0
     { id := 1, type_cn := "TV" } 5 (by decide),
   C7_relation_errors_caught_entity_errors_abort.2.2.2.2.2.2.2.2.1 sample_badPlatformConfig
     (clear_database sample_db0) 5 { id := 1, type_cn := "TV" } [] [] .keyError
     rfl (by decide),
   C7_relation_errors_caught_entity_errors_abort.2.2.2.2.2.2.2.2.2.2.2.1
     sample_badPlatformConfig none none sample_db0 emptyRawData .keyError (by decide),
   C7_relation_errors_caught_entity_errors_abort.2.2.2.2.2.2.2.2.2.2.2.2
     emptyConfig none none sample_db0 sample_badPersonData .keyError
     (clear_database sample_db0) (clear_database sample_db0) (clear_database sample_db0)
     (by decide) (by decide) (by decide) (by decide)⟩

/- ----------------------------------------------------------------
Claim C6.
---------------------------------------------------------------- -/

/-- C6: the display label of a subject-relation edge is resolved by
first selecting the taxonomy sub-table keyed by the related subject's
category; a relation-type code present in the sub-table resolves to the
configured label, an absent one falls back to the plain category label,
and neither outcome is an error; the resolved label becomes the type
property of the merged edge.  For subject-person relations the
sub-table is keyed by the subject's own category and an absent position
code is a lookup error — no fallback. -/
theorem C6_category_scoped_label_resolution_with_fallback
    (cfg : Config) (db : BangumiDatabase) (r : SubjectRelation)
    (cat : Int) (tbl : List (Int × RawDataReader.SubjectRelation)) (catLabel : String)
    (hcat : dictLookup r.related_subject_id db.subject_category_mapping = some cat)
    (htbl : dictLookup cat cfg.SUBJECT_RELATION_CONFIG = some tbl)
    (hlabel : dictLookup cat CATEGORY_MAPPING = some catLabel) :
    (∀ entry, dictLookup r.relation_type tbl = some entry →
        resolve_subject_relation_name cfg db r = .ok entry.cn) ∧
    (dictLookup r.relation_type tbl = none →
        resolve_subject_relation_name cfg db r = .ok catLabel) ∧
    (∀ name s1 s2, resolve_subject_relation_name cfg db r = .ok name →
        db.graph.matchNode "Subject" [("subject_id", .vInt r.subject_id)] = some s1 →
        db.graph.matchNode "Subject" [("subject_id", .vInt r.related_subject_id)] = some s2 →
        _insert_a_subject_relation cfg db r
          = .ok { db with graph := db.graph.mergeEdge s1.nid s2.nid "SubjectRelation" [("type", .vStr name)] }) ∧
    (∀ (r2 : SubjectPersonRelation) cat2 tbl2,
        dictLookup r2.subject_id db.subject_category_mapping = some cat2 →
        dictLookup cat2 cfg.SUBJECT_PERSON_CONFIG = some tbl2 →
        ((∀ entry2, dictLookup r2.position tbl2 = some entry2 →
            resolve_subject_person_name cfg db r2 = .ok entry2.cn) ∧
         (dictLookup r2.position tbl2 = none →
            resolve_subject_person_name cfg db r2 = .error .keyError))) := by
  refine ⟨?_, ?_, ?_, ?_⟩
  · intro entry hent
    simp [resolve_subject_relation_name, dictGet, hcat, htbl, hent]
  · intro hnone
    simp [resolve_subject_relation_name, dictGet, hcat, htbl, hnone, hlabel]
  · intro name s1 s2 hres h1 h2
    simp [_insert_a_subject_relation, hres, h1, h2]
  · intro r2 cat2 tbl2 hc2 ht2
    constructor
    · intro entry2 he2
      simp [resolve_subject_person_name, dictGet, hc2, ht2, he2]
    · intro hn2
      simp [resolve_subject_person_name, dictGet, hc2, ht2, hn2]

/-- Witness for C6 on the state with sampleSubjectX (category 2)
indexed and the sample taxonomy configuration: code 1 resolves to its
configured label, the unknown code 99 falls back to the plain category
label, position 3 resolves to its configured label, and the unknown
position 99 is a lookup error. -/
theorem C6_witness :
    dictLookup (10 : Int) sample_db1.subject_category_mapping = some 2 ∧
    dictLookup (2 : Int) sampleConfig.SUBJECT_RELATION_CONFIG = some [(1, sampleRelEntry)] ∧
    dictLookup (2 : Int) CATEGORY_MAPPING = some "动画" ∧
    resolve_subject_relation_name sampleConfig sample_db1
      { subject_id := 10, related_subject_id := 10, relation_type := 1 } = .ok "续集" ∧
    resolve_subject_relation_name sampleConfig sample_db1
      { subject_id := 10, related_subject_id := 10, relation_type := 99 } = .ok "动画" ∧
    resolve_subject_person_name sampleConfig sample_db1
      { person_id := 1, subject_id := 10, position := 3 } = .ok "导演" ∧
    resolve_subject_person_name sampleConfig sample_db1
      { person_id := 1, subject_id := 10, position := 99 } = .error .keyError := by
  refine ⟨by decide, by decide, by decide, ?_, ?_, ?_, ?_⟩
  · exact (C6_category_scoped_label_resolution_with_fallback sampleConfig sample_db1
      { subject_id := 10, related_subject_id := 10, relation_type := 1 }
      2 [(1, sampleRelEntry)] "动画" (by decide) (by decide) (by decide)).1
      sampleRelEntry (by decide)
  · exact (C6_category_scoped_label_resolution_with_fallback sampleConfig sample_db1
      { subject_id := 10, related_subject_id := 10, relation_type := 99 }
      2 [(1, sampleRelEntry)] "动画" (by decide) (by decide) (by decide)).2.1 (by decide)
  · exact ((C6_category_scoped_label_resolution_with_fallback sampleConfig sample_db1
      { subject_id := 10, related_subject_id := 10, relation_type := 1 }
      2 [(1, sampleRelEntry)] "动画" (by decide) (by decide) (by decide)).2.2.2
      { person_id := 1, subject_id := 10, position := 3 }
      2 [(3, samplePosEntry)] (by decide) (by decide)).1 samplePosEntry (by decide)
  · exact ((C6_category_scoped_label_resolution_with_fallback sampleConfig sample_db1
      { subject_id := 10, related_subject_id := 10, relation_type := 1 }
      2 [(1, sampleRelEntry)] "动画" (by decide) (by decide) (by decide)).2.2.2
      { person_id := 1, subject_id := 10, position := 99 }
      2 [(3, samplePosEntry)] (by decide) (by decide)).2 (by decide)

/- C3 development -/

def subjectUnindexed (i : Int) (db : BangumiDatabase) : Prop :=
  dictLookup i db.subject_category_mapping = none ∧
  dictLookup i db.subject_name_mapping = none ∧
  db.graph.matchNode "Subject" [("subject_id", .vInt i)] = none

instance (i : Int) (db : BangumiDatabase) : Decidable (subjectUnindexed i db) := by
  unfold subjectUnindexed
  infer_instance

lemma matchNode_mergeEdge (g : Graph) (a b : Nat) (l : String) (p : List (String × Val))
    (lbl : String) (pat : List (String × Val)) :
    (g.mergeEdge a b l p).matchNode lbl pat = g.matchNode lbl pat := by
  unfold Graph.mergeEdge
  split <;> rfl

lemma matchNode_createNode_other (g : Graph) (lbl2 : String) (pr : List (String × Val))
    {lbl : String} {pat : List (String × Val)}
    (h : g.matchNode lbl pat = none)
    (hnew : (decide (lbl2 = lbl) && propsMatch pat pr) = false) :
    (g.createNode lbl2 pr).1.matchNode lbl pat = none := by
  unfold Graph.matchNode at h
  unfold Graph.createNode Graph.matchNode
  simp only [List.find?_append, h, Option.none_or]
  simp [List.find?, hnew]

lemma matchNode_mergeNode_other (g : Graph) (lbl2 : String) (pr : List (String × Val))
    {lbl : String} {pat : List (String × Val)}
    (h : g.matchNode lbl pat = none)
    (hnew : (decide (lbl2 = lbl) && propsMatch pat pr) = false) :
    (g.mergeNode lbl2 pr).1.matchNode lbl pat = none := by
  unfold Graph.mergeNode
  cases hm : g.matchNode lbl2 pr with
  | some n => exact h
  | none => exact matchNode_createNode_other g lbl2 pr h hnew

def nsfwGuard (i : Int) : Option Subject → Bool
  | some s => if s.id = i then s.nsfw else true
  | none => true

lemma insert_subject_preserves_unindexed {db db1 : BangumiDatabase} {s : Subject} {i : Int}
    (hid : s.id = i → s.nsfw = true)
    (h : _insert_a_subject db s = .ok db1)
    (hu : subjectUnindexed i db) : subjectUnindexed i db1 := by
  obtain ⟨h1, h2, h3⟩ := hu
  by_cases hn : s.nsfw
  · unfold _insert_a_subject at h
    rw [if_pos hn] at h
    cases h
    exact ⟨h1, h2, h3⟩
  · have hsi : ¬ s.id = i := fun hh => hn (hid hh)
    unfold _insert_a_subject at h
    rw [if_neg hn] at h
    cases h
    refine ⟨?_, ?_, ?_⟩
    · simp [dictLookup, hsi, h1]
    · simp [dictLookup, hsi, h2]
    · rw [matchNode_mergeEdge]
      apply matchNode_mergeNode_other
      · apply matchNode_createNode_other _ _ _ h3
        simp [propsMatch, dictLookup, hsi]
      · simp

lemma entityLoop_subject_unindexed {i : Int} :
    ∀ (lines : List (Option Subject)) (db : BangumiDatabase) (cnt : Nat)
      (lim : Option Nat) (db1 : BangumiDatabase),
      lines.all (nsfwGuard i) = true →
      subjectUnindexed i db →
      entityLoop _insert_a_subject db cnt lim lines = .ok db1 →
      subjectUnindexed i db1 := by
  intro lines
  induction lines with
  | nil =>
    intro db cnt lim db1 _ hu hrun
    cases hrun
    exact hu
  | cons line rest ih =>
    intro db cnt lim db1 hall hu hrun
    cases line with
    | none => exact absurd hrun (by simp [entityLoop])
    | some s =>
      rw [List.all_cons] at hall
      obtain ⟨hs, hrest⟩ := (Bool.and_eq_true _ _).mp hall
      have hid : s.id = i → s.nsfw = true := by
        intro hh
        simpa [nsfwGuard, hh] using hs
      cases hins : _insert_a_subject db s with
      | error e => simp [entityLoop, hins] at hrun
      | ok db2 =>
        have hu2 := insert_subject_preserves_unindexed hid hins hu
        simp only [entityLoop, hins] at hrun
        by_cases hl : limitReached lim (cnt + 1)
        · rw [if_pos hl] at hrun
          cases hrun
          exact hu2
        · rw [if_neg hl] at hrun
          exact ih db2 (cnt + 1) lim db1 hrest hu2 hrun

theorem C3_adult_subjects_dropped_and_never_referenced
    (lines : List (Option Subject)) (db db1 : BangumiDatabase) (cnt : Nat)
    (lim : Option Nat) (i : Int)
    (hall : lines.all (nsfwGuard i) = true)
    (h0 : subjectUnindexed i db)
    (hrun : entityLoop _insert_a_subject db cnt lim lines = .ok db1) :
    (∀ (d : BangumiDatabase) (s : Subject), s.nsfw = true → _insert_a_subject d s = .ok d) ∧
    subjectUnindexed i db1 ∧
    (∀ cfg cnt2 lim2 (r : SubjectRelation) rest,
        r.subject_id = i ∨ r.related_subject_id = i →
        relationLoop subjectRelationPasses (_insert_a_subject_relation cfg)
            subjectRelationLogEntry db1 cnt2 lim2 (some r :: rest)
          = relationLoop subjectRelationPasses (_insert_a_subject_relation cfg)
              subjectRelationLogEntry db1 cnt2 lim2 rest) ∧
    (∀ cfg cnt2 lim2 (r : SubjectPersonRelation) rest, r.subject_id = i →
        relationLoop subjectPersonPasses (_insert_a_subject_person_relation cfg)
            subjectPersonLogEntry db1 cnt2 lim2 (some r :: rest)
          = relationLoop subjectPersonPasses (_insert_a_subject_person_relation cfg)
              subjectPersonLogEntry db1 cnt2 lim2 rest) ∧
    (∀ cnt2 lim2 (r : SubjectCharacterRelation) rest, r.subject_id = i →
        relationLoop subjectCharacterPasses _insert_a_subject_character_relation
            subjectCharacterLogEntry db1 cnt2 lim2 (some r :: rest)
          = relationLoop subjectCharacterPasses _insert_a_subject_character_relation
              subjectCharacterLogEntry db1 cnt2 lim2 rest) ∧
    (∀ cnt2 lim2 (r : PersonCharacterRelation) rest, r.subject_id = i →
        relationLoop personCharacterPasses _insert_a_person_character_relation
            personCharacterLogEntry db1 cnt2 lim2 (some r :: rest)
          = relationLoop personCharacterPasses _insert_a_person_character_relation
              personCharacterLogEntry db1 cnt2 lim2 rest) := by
  have hu1 := entityLoop_subject_unindexed lines db cnt lim db1 hall h0 hrun
  obtain ⟨hc, hnm, hmn⟩ := hu1
  refine ⟨?_, ⟨hc, hnm, hmn⟩, ?_, ?_, ?_, ?_⟩
  · intro d s hs
    simp [_insert_a_subject, hs]
  · intro cfg cnt2 lim2 r rest hr
    apply relationLoop_skip
    cases hr with
    | inl h => simp [subjectRelationPasses, h, hc]
    | inr h => simp [subjectRelationPasses, h, hc]
  · intro cfg cnt2 lim2 r rest hr
    apply relationLoop_skip
    simp [subjectPersonPasses, hr, hc]
  · intro cnt2 lim2 r rest hr
    apply relationLoop_skip
    simp [subjectCharacterPasses, hr, hc]
  · intro cnt2 lim2 r rest hr
    apply relationLoop_skip
    simp [personCharacterPasses, hr, hnm]

theorem C3_witness :
    ([some sampleNsfwSubject].all (nsfwGuard 5)) = true ∧
    subjectUnindexed 5 sample_db0 ∧
    entityLoop _insert_a_subject sample_db0 0 none [some sampleNsfwSubject] = .ok sample_db0 ∧
    subjectUnindexed 5 sample_db0 ∧
    relationLoop subjectRelationPasses (_insert_a_subject_relation emptyConfig)
        subjectRelationLogEntry sample_db0 0 none
        [some { subject_id := 5, related_subject_id := 10, relation_type := 1 }]
      = relationLoop subjectRelationPasses (_insert_a_subject_relation emptyConfig)
          subjectRelationLogEntry sample_db0 0 none [] :=
  ⟨by decide, by decide, by decide,
   (C3_adult_subjects_dropped_and_never_referenced [some sampleNsfwSubject] sample_db0
      sample_db0 0 none 5 (by decide) (by decide) (by decide)).2.1,
   (C3_adult_subjects_dropped_and_never_referenced [some sampleNsfwSubject] sample_db0
      sample_db0 0 none 5 (by decide) (by decide) (by decide)).2.2.1 emptyConfig 0 none
      { subject_id := 5, related_subject_id := 10, relation_type := 1 } [] (Or.inl rfl)⟩

/- C4 development -/

def personUnindexed (i : Int) (db : BangumiDatabase) : Prop :=
  setMem i db.person_id_set = false ∧
  db.graph.matchNode "Person" [("person_id", .vInt i)] = none

instance (i : Int) (db : BangumiDatabase) : Decidable (personUnindexed i db) := by
  unfold personUnindexed
  infer_instance

def typeZeroGuard (i : Int) : Option Person → Bool
  | some p => if p.id = i then p.type = 0 else true
  | none => true

lemma setMem_setAdd_other {i j : Int} {s : List Int} (h : ¬ j = i) :
    setMem i (setAdd j s) = setMem i s := by
  unfold setAdd
  split
  · rfl
  · simp [setMem, h]

lemma insert_person_preserves_unindexed {db db1 : BangumiDatabase} {p : Person} {i : Int}
    (hid : p.id = i → p.type = 0)
    (h : _insert_a_person db p = .ok db1)
    (hu : personUnindexed i db) : personUnindexed i db1 := by
  obtain ⟨h1, h2⟩ := hu
  by_cases ht : p.type = 0
  · unfold _insert_a_person at h
    rw [if_pos ht] at h
    cases h
    exact ⟨h1, h2⟩
  · have hpi : ¬ p.id = i := fun hh => ht (hid hh)
    unfold _insert_a_person at h
    rw [if_neg ht] at h
    cases hd : dictGet PERSON_TYPE_MAPPING p.type with
    | error e => rw [hd] at h; cases h
    | ok tl =>
      rw [hd] at h
      cases hm : p.career.mapM (fun c => dictGet CAREER_MAPPING c) with
      | error e => rw [hm] at h; cases h
      | ok careers =>
        rw [hm] at h
        cases h
        refine ⟨?_, ?_⟩
        · rw [setMem_setAdd_other hpi]
          exact h1
        · apply matchNode_createNode_other _ _ _ h2
          simp [propsMatch, dictLookup, hpi]

lemma entityLoop_person_unindexed {i : Int} :
    ∀ (lines : List (Option Person)) (db : BangumiDatabase) (cnt : Nat)
      (lim : Option Nat) (db1 : BangumiDatabase),
      lines.all (typeZeroGuard i) = true →
      personUnindexed i db →
      entityLoop _insert_a_person db cnt lim lines = .ok db1 →
      personUnindexed i db1 := by
  intro lines
  induction lines with
  | nil =>
    intro db cnt lim db1 _ hu hrun
    cases hrun
    exact hu
  | cons line rest ih =>
    intro db cnt lim db1 hall hu hrun
    cases line with
    | none => exact absurd hrun (by simp [entityLoop])
    | some p =>
      rw [List.all_cons] at hall
      obtain ⟨hp, hrest⟩ := (Bool.and_eq_true _ _).mp hall
      have hid : p.id = i → p.type = 0 := by
        intro hh
        simpa [typeZeroGuard, hh] using hp
      cases hins : _insert_a_person db p with
      | error e => simp [entityLoop, hins] at hrun
      | ok db2 =>
        have hu2 := insert_person_preserves_unindexed hid hins hu
        simp only [entityLoop, hins] at hrun
        by_cases hl : limitReached lim (cnt + 1)
        · rw [if_pos hl] at hrun
          cases hrun
          exact hu2
        · rw [if_neg hl] at hrun
          exact ih db2 (cnt + 1) lim db1 hrest hu2 hrun

theorem C4_type_zero_persons_dropped_and_never_referenced
    (lines : List (Option Person)) (db db1 : BangumiDatabase) (cnt : Nat)
    (lim : Option Nat) (i : Int)
    (hall : lines.all (typeZeroGuard i) = true)
    (h0 : personUnindexed i db)
    (hrun : entityLoop _insert_a_person db cnt lim lines = .ok db1) :
    (∀ (d : BangumiDatabase) (p : Person), p.type = 0 →
        _insert_a_person d p = .ok { d with log := .personHasNoType p.id :: d.log }) ∧
    personUnindexed i db1 ∧
    (∀ cfg cnt2 lim2 (r : SubjectPersonRelation) rest, r.person_id = i →
        relationLoop subjectPersonPasses (_insert_a_subject_person_relation cfg)
            subjectPersonLogEntry db1 cnt2 lim2 (some r :: rest)
          = relationLoop subjectPersonPasses (_insert_a_subject_person_relation cfg)
              subjectPersonLogEntry db1 cnt2 lim2 rest) ∧
    (∀ cnt2 lim2 (r : PersonCharacterRelation) rest, r.person_id = i →
        relationLoop personCharacterPasses _insert_a_person_character_relation
            personCharacterLogEntry db1 cnt2 lim2 (some r :: rest)
          = relationLoop personCharacterPasses _insert_a_person_character_relation
              personCharacterLogEntry db1 cnt2 lim2 rest) := by
  have hu1 := entityLoop_person_unindexed lines db cnt lim db1 hall h0 hrun
  obtain ⟨h1, h2⟩ := hu1
  refine ⟨?_, ⟨h1, h2⟩, ?_, ?_⟩
  · intro d p ht
    simp [_insert_a_person, ht]
  · intro cfg cnt2 lim2 r rest hr
    apply relationLoop_skip
    simp [subjectPersonPasses, hr, h1]
  · intro cnt2 lim2 r rest hr
    apply relationLoop_skip
    simp [personCharacterPasses, hr, h1]

theorem C4_witness :
    ([some sampleTypeZeroPerson].all (typeZeroGuard 7)) = true ∧
    personUnindexed 7 sample_db0 ∧
    entityLoop _insert_a_person sample_db0 0 none [some sampleTypeZeroPerson]
      = .ok { sample_db0 with log := [LogEntry.personHasNoType 7] } ∧
    personUnindexed 7 { sample_db0 with log := [LogEntry.personHasNoType 7] } ∧
    relationLoop subjectPersonPasses (_insert_a_subject_person_relation emptyConfig)
        subjectPersonLogEntry { sample_db0 with log := [LogEntry.personHasNoType 7] } 0 none
        [some { person_id := 7, subject_id := 10, position := 3 }]
      = relationLoop subjectPersonPasses (_insert_a_subject_person_relation emptyConfig)
          subjectPersonLogEntry { sample_db0 with log := [LogEntry.personHasNoType 7] } 0 none [] :=
  ⟨by decide, by decide, by decide,
   (C4_type_zero_persons_dropped_and_never_referenced [some sampleTypeZeroPerson] sample_db0
      { sample_db0 with log := [LogEntry.personHasNoType 7] } 0 none 7
      (by decide) (by decide) (by decide)).2.1,
   (C4_type_zero_persons_dropped_and_never_referenced [some sampleTypeZeroPerson] sample_db0
      { sample_db0 with log := [LogEntry.personHasNoType 7] } 0 none 7
      (by decide) (by decide) (by decide)).2.2.1 emptyConfig 0 none
      { person_id := 7, subject_id := 10, position := 3 } [] rfl⟩

/- C9 development -/

lemma entityLoop_cap {R : Type} (insert : BangumiDatabase → R → Except Err BangumiDatabase) :
    ∀ (lines : List (Option R)) (db : BangumiDatabase) (cnt N : Nat), cnt < N →
      entityLoop insert db cnt (some N) lines
        = entityLoop insert db cnt none (lines.take (N - cnt)) := by
  intro lines
  induction lines with
  | nil =>
    intro db cnt N h
    simp [entityLoop]
  | cons line rest ih =>
    intro db cnt N h
    have hpos : N - cnt = (N - cnt - 1) + 1 := by omega
    rw [hpos]
    cases line with
    | none => simp [entityLoop, List.take_succ_cons]
    | some r =>
      cases hins : insert db r with
      | error e => simp [entityLoop, hins, List.take_succ_cons]
      | ok db2 =>
        by_cases hl : N ≤ cnt + 1
        · have h0 : N - cnt - 1 = 0 := by omega
          rw [h0]
          simp [entityLoop, hins, limitReached, hl, List.take_succ_cons]
        · have h2 : cnt + 1 < N := by omega
          have heq : N - cnt - 1 = N - (cnt + 1) := by omega
          rw [heq, List.take_succ_cons]
          simp only [entityLoop, hins]
          rw [if_neg (by simp [limitReached]; omega), if_neg (by simp [limitReached])]
          exact ih db2 (cnt + 1) N h2

/-- The prefix of a relation-stage file that a cap of `n` filter-passing
records reaches: malformed and filtered-out lines are kept (they are
read and do not count), and the prefix closes with the n-th passing
record. -/
def takeUptoNPassing {R : Type} (passes : BangumiDatabase → R → Bool) (db : BangumiDatabase)
    (n : Nat) : List (Option R) → List (Option R)
  | [] => []
  | none :: rest => none :: takeUptoNPassing passes db n rest
  | some r :: rest =>
    if passes db r then
      if n ≤ 1 then [some r]
      else some r :: takeUptoNPassing passes db (n - 1) rest
    else some r :: takeUptoNPassing passes db n rest

lemma takeUptoNPassing_congr {R : Type} {passes : BangumiDatabase → R → Bool}
    {db db2 : BangumiDatabase} (h : ∀ r, passes db r = passes db2 r) :
    ∀ (n : Nat) (lines : List (Option R)),
      takeUptoNPassing passes db n lines = takeUptoNPassing passes db2 n lines := by
  intro n lines
  induction lines generalizing n with
  | nil => rfl
  | cons line rest ih =>
    cases line with
    | none => simp [takeUptoNPassing, ih]
    | some r =>
      rw [takeUptoNPassing, takeUptoNPassing, h r]
      cases hp : passes db2 r with
      | false => simp [ih]
      | true =>
        by_cases hn : n ≤ 1
        · simp [hn]
        · simp [hn, ih]

lemma relationLoop_cap {R : Type} (passes : BangumiDatabase → R → Bool)
    (insert : BangumiDatabase → R → Except Err BangumiDatabase) (logOf : R → LogEntry)
    (hp : ∀ d r r2, passes (relationProcess insert logOf d r) r2 = passes d r2) :
    ∀ (lines : List (Option R)) (db : BangumiDatabase) (cnt N : Nat), cnt < N →
      relationLoop passes insert logOf db cnt (some N) lines
        = relationLoop passes insert logOf db cnt none
            (takeUptoNPassing passes db (N - cnt) lines) := by
  intro lines
  induction lines with
  | nil =>
    intro db cnt N h
    simp [relationLoop, takeUptoNPassing]
  | cons line rest ih =>
    intro db cnt N h
    cases line with
    | none => simp [relationLoop, takeUptoNPassing]
    | some r =>
      cases hpass : passes db r with
      | false =>
        rw [takeUptoNPassing, if_neg (by simp [hpass])]
        rw [relationLoop_skip hpass, relationLoop_skip hpass]
        exact ih db cnt N h
      | true =>
        by_cases hl : N ≤ cnt + 1
        · have h1 : N - cnt = 1 := by omega
          rw [takeUptoNPassing, if_pos hpass, h1, if_pos (by omega)]
          simp [relationLoop, hpass, limitReached, hl]
        · have h2 : cnt + 1 < N := by omega
          rw [takeUptoNPassing, if_pos hpass, if_neg (by omega)]
          simp only [relationLoop, hpass, if_pos]
          rw [if_neg (by simp [limitReached]; omega), if_neg (by simp [limitReached])]
          have hcongr : ∀ r2, passes db r2 = passes (relationProcess insert logOf db r) r2 :=
            fun r2 => (hp db r r2).symm
          rw [takeUptoNPassing_congr hcongr]
          have heq : N - cnt - 1 = N - (cnt + 1) := by omega
          rw [heq]
          exact ih (relationProcess insert logOf db r) (cnt + 1) N h2

lemma entityLoop_nolimit_cnt {R : Type} (insert : BangumiDatabase → R → Except Err BangumiDatabase) :
    ∀ (lines : List (Option R)) (db : BangumiDatabase) (cnt cnt2 : Nat),
      entityLoop insert db cnt none lines = entityLoop insert db cnt2 none lines := by
  intro lines
  induction lines with
  | nil => intro db cnt cnt2; rfl
  | cons line rest ih =>
    intro db cnt cnt2
    cases line with
    | none => rfl
    | some r =>
      cases hins : insert db r with
      | error e => simp [entityLoop, hins]
      | ok db2 => simp [entityLoop, hins, limitReached, ih db2 (cnt + 1) (cnt2 + 1)]

lemma entityLoop_nolimit_append {R : Type} (insert : BangumiDatabase → R → Except Err BangumiDatabase) :
    ∀ (l1 l2 : List (Option R)) (db : BangumiDatabase) (cnt : Nat),
      entityLoop insert db cnt none (l1 ++ l2)
        = (match entityLoop insert db cnt none l1 with
           | .ok d => entityLoop insert d cnt none l2
           | .error e => .error e) := by
  intro l1
  induction l1 with
  | nil => intro l2 db cnt; rfl
  | cons line rest ih =>
    intro l2 db cnt
    cases line with
    | none => rfl
    | some r =>
      cases hins : insert db r with
      | error e => simp [entityLoop, hins]
      | ok db2 =>
        have hL : entityLoop insert db cnt none ((some r :: rest) ++ l2)
            = entityLoop insert db2 (cnt + 1) none (rest ++ l2) := by
          simp [entityLoop, hins, limitReached]
        have hR : entityLoop insert db cnt none (some r :: rest)
            = entityLoop insert db2 (cnt + 1) none rest := by
          simp [entityLoop, hins, limitReached]
        rw [hL, hR, ih l2 db2 (cnt + 1)]
        cases entityLoop insert db2 (cnt + 1) none rest with
        | error e => rfl
        | ok d => exact entityLoop_nolimit_cnt insert l2 d (cnt + 1) cnt

lemma relationLoop_nolimit_cnt {R : Type} (passes : BangumiDatabase → R → Bool)
    (insert : BangumiDatabase → R → Except Err BangumiDatabase) (logOf : R → LogEntry) :
    ∀ (lines : List (Option R)) (db : BangumiDatabase) (cnt cnt2 : Nat),
      relationLoop passes insert logOf db cnt none lines
        = relationLoop passes insert logOf db cnt2 none lines := by
  intro lines
  induction lines with
  | nil => intro db cnt cnt2; rfl
  | cons line rest ih =>
    intro db cnt cnt2
    cases line with
    | none => rfl
    | some r =>
      cases hpass : passes db r with
      | false => simp [relationLoop, hpass, ih db cnt cnt2]
      | true =>
        simp [relationLoop, hpass, limitReached,
          ih (relationProcess insert logOf db r) (cnt + 1) (cnt2 + 1)]

lemma relationLoop_nolimit_append {R : Type} (passes : BangumiDatabase → R → Bool)
    (insert : BangumiDatabase → R → Except Err BangumiDatabase) (logOf : R → LogEntry) :
    ∀ (l1 l2 : List (Option R)) (db : BangumiDatabase) (cnt : Nat),
      relationLoop passes insert logOf db cnt none (l1 ++ l2)
        = (match relationLoop passes insert logOf db cnt none l1 with
           | .ok d => relationLoop passes insert logOf d cnt none l2
           | .error e => .error e) := by
  intro l1
  induction l1 with
  | nil => intro l2 db cnt; rfl
  | cons line rest ih =>
    intro l2 db cnt
    cases line with
    | none => rfl
    | some r =>
      cases hpass : passes db r with
      | false =>
        simp only [List.cons_append]
        rw [relationLoop_skip hpass, relationLoop_skip hpass]
        exact ih l2 db cnt
      | true =>
        have hL : relationLoop passes insert logOf db cnt none ((some r :: rest) ++ l2)
            = relationLoop passes insert logOf (relationProcess insert logOf db r)
                (cnt + 1) none (rest ++ l2) := by
          simp [relationLoop, hpass, limitReached]
        have hR : relationLoop passes insert logOf db cnt none (some r :: rest)
            = relationLoop passes insert logOf (relationProcess insert logOf db r)
                (cnt + 1) none rest := by
          simp [relationLoop, hpass, limitReached]
        rw [hL, hR, ih l2 (relationProcess insert logOf db r) (cnt + 1)]
        cases relationLoop passes insert logOf (relationProcess insert logOf db r) (cnt + 1) none rest with
        | error e => rfl
        | ok d => exact relationLoop_nolimit_cnt passes insert logOf l2 d (cnt + 1) cnt

/-- The four Reference Index tables of a state, bundled. -/
def refIndex (db : BangumiDatabase) :
    (List (Int × Int)) × (List (Int × String)) × (List Int) × (List (Int × String)) :=
  (db.subject_category_mapping, db.subject_name_mapping, db.person_id_set,
   db.character_name_mapping)

lemma insert_subject_relation_refIndex {cfg : Config} {d d2 : BangumiDatabase}
    {r : SubjectRelation} (h : _insert_a_subject_relation cfg d r = .ok d2) :
    refIndex d2 = refIndex d := by
  unfold _insert_a_subject_relation at h
  repeat' split at h
  all_goals cases h
  all_goals rfl

lemma insert_subject_person_refIndex {cfg : Config} {d d2 : BangumiDatabase}
    {r : SubjectPersonRelation} (h : _insert_a_subject_person_relation cfg d r = .ok d2) :
    refIndex d2 = refIndex d := by
  unfold _insert_a_subject_person_relation at h
  repeat' split at h
  all_goals cases h
  all_goals rfl

lemma insert_subject_character_refIndex {d d2 : BangumiDatabase}
    {r : SubjectCharacterRelation} (h : _insert_a_subject_character_relation d r = .ok d2) :
    refIndex d2 = refIndex d := by
  unfold _insert_a_subject_character_relation at h
  repeat' split at h
  all_goals cases h
  all_goals rfl

lemma insert_person_character_refIndex {d d2 : BangumiDatabase}
    {r : PersonCharacterRelation} (h : _insert_a_person_character_relation d r = .ok d2) :
    refIndex d2 = refIndex d := by
  unfold _insert_a_person_character_relation at h
  repeat' split at h
  all_goals cases h
  all_goals rfl

lemma relationProcess_refIndex {R : Type}
    {insert : BangumiDatabase → R → Except Err BangumiDatabase} {logOf : R → LogEntry}
    (hins : ∀ d r d2, insert d r = .ok d2 → refIndex d2 = refIndex d) :
    ∀ d r, refIndex (relationProcess insert logOf d r) = refIndex d := by
  intro d r
  unfold relationProcess
  cases hi : insert d r with
  | ok d2 => exact hins d r d2 hi
  | error e => rfl

lemma subjectRelationPasses_congr {d d2 : BangumiDatabase} (h : refIndex d2 = refIndex d) :
    ∀ r, subjectRelationPasses d2 r = subjectRelationPasses d r := by
  intro r
  have h1 : d2.subject_category_mapping = d.subject_category_mapping :=
    congrArg (fun t => t.1) h
  unfold subjectRelationPasses
  rw [h1]

lemma subjectPersonPasses_congr {d d2 : BangumiDatabase} (h : refIndex d2 = refIndex d) :
    ∀ r, subjectPersonPasses d2 r = subjectPersonPasses d r := by
  intro r
  have h1 : d2.subject_category_mapping = d.subject_category_mapping :=
    congrArg (fun t => t.1) h
  have h2 : d2.person_id_set = d.person_id_set := congrArg (fun t => t.2.2.1) h
  unfold subjectPersonPasses
  rw [h1, h2]

lemma subjectCharacterPasses_congr {d d2 : BangumiDatabase} (h : refIndex d2 = refIndex d) :
    ∀ r, subjectCharacterPasses d2 r = subjectCharacterPasses d r := by
  intro r
  have h1 : d2.subject_category_mapping = d.subject_category_mapping :=
    congrArg (fun t => t.1) h
  have h2 : d2.character_name_mapping = d.character_name_mapping :=
    congrArg (fun t => t.2.2.2) h
  unfold subjectCharacterPasses
  rw [h1, h2]

lemma personCharacterPasses_congr {d d2 : BangumiDatabase} (h : refIndex d2 = refIndex d) :
    ∀ r, personCharacterPasses d2 r = personCharacterPasses d r := by
  intro r
  have h1 : d2.person_id_set = d.person_id_set := congrArg (fun t => t.2.2.1) h
  have h2 : d2.character_name_mapping = d.character_name_mapping :=
    congrArg (fun t => t.2.2.2) h
  have h3 : d2.subject_name_mapping = d.subject_name_mapping :=
    congrArg (fun t => t.2.1) h
  unfold personCharacterPasses
  rw [h1, h2, h3]

/-- State with both sampleSubjectX and sampleSubjectY indexed. -/
def sample_dbXY : BangumiDatabase := okOr sample_db1 (_insert_a_subject sample_db1 sampleSubjectY)

/-- C9: with a cap of N, an entity stage processes exactly the first N
decoded lines of its file, and a relation stage processes the prefix
that closes with the N-th record passing the Reference Index filter —
skipped records are read but do not consume the cap; with no cap
configured, both loop kinds process every line of the file
(composition over concatenation).  The last four parts show that
processing a relation record never changes which later records pass,
which is what the relation-stage cap statement rests on. -/
theorem C9_record_caps_and_full_read :
    (∀ (R : Type) (insert : BangumiDatabase → R → Except Err BangumiDatabase)
        (db : BangumiDatabase) (lines : List (Option R)) (N : Nat), 1 ≤ N →
        entityLoop insert db 0 (some N) lines
          = entityLoop insert db 0 none (lines.take N)) ∧
    (∀ (R : Type) (passes : BangumiDatabase → R → Bool)
        (insert : BangumiDatabase → R → Except Err BangumiDatabase) (logOf : R → LogEntry),
        (∀ d r r2, passes (relationProcess insert logOf d r) r2 = passes d r2) →
        ∀ (db : BangumiDatabase) (lines : List (Option R)) (N : Nat), 1 ≤ N →
        relationLoop passes insert logOf db 0 (some N) lines
          = relationLoop passes insert logOf db 0 none (takeUptoNPassing passes db N lines)) ∧
    (∀ (R : Type) (insert : BangumiDatabase → R → Except Err BangumiDatabase)
        (l1 l2 : List (Option R)) (db : BangumiDatabase) (cnt : Nat),
        entityLoop insert db cnt none (l1 ++ l2)
          = (match entityLoop insert db cnt none l1 with
             | .ok d => entityLoop insert d cnt none l2
             | .error e => .error e)) ∧
    (∀ (R : Type) (passes : BangumiDatabase → R → Bool)
        (insert : BangumiDatabase → R → Except Err BangumiDatabase) (logOf : R → LogEntry)
        (l1 l2 : List (Option R)) (db : BangumiDatabase) (cnt : Nat),
        relationLoop passes insert logOf db cnt none (l1 ++ l2)
          = (match relationLoop passes insert logOf db cnt none l1 with
             | .ok d => relationLoop passes insert logOf d cnt none l2
             | .error e => .error e)) ∧
    (∀ cfg d (r : SubjectRelation) r2,
        subjectRelationPasses (relationProcess (_insert_a_subject_relation cfg)
          subjectRelationLogEntry d r) r2 = subjectRelationPasses d r2) ∧
    (∀ cfg d (r : SubjectPersonRelation) r2,
        subjectPersonPasses (relationProcess (_insert_a_subject_person_relation cfg)
          subjectPersonLogEntry d r) r2 = subjectPersonPasses d r2) ∧
    (∀ d (r : SubjectCharacterRelation) r2,
        subjectCharacterPasses (relationProcess _insert_a_subject_character_relation
          subjectCharacterLogEntry d r) r2 = subjectCharacterPasses d r2) ∧
    (∀ d (r : PersonCharacterRelation) r2,
        personCharacterPasses (relationProcess _insert_a_person_character_relation
          personCharacterLogEntry d r) r2 = personCharacterPasses d r2) := by
  refine ⟨?_, ?_, ?_, ?_, ?_, ?_, ?_, ?_⟩
  · intro R insert db lines N h
    simpa using entityLoop_cap insert lines db 0 N h
  · intro R passes insert logOf hp db lines N h
    simpa using relationLoop_cap passes insert logOf hp lines db 0 N h
  · intro R insert l1 l2 db cnt
    exact entityLoop_nolimit_append insert l1 l2 db cnt
  · intro R passes insert logOf l1 l2 db cnt
    exact relationLoop_nolimit_append passes insert logOf l1 l2 db cnt
  · intro cfg d r r2
    exact subjectRelationPasses_congr
      (relationProcess_refIndex (fun a b c hh => insert_subject_relation_refIndex hh) d r) r2
  · intro cfg d r r2
    exact subjectPersonPasses_congr
      (relationProcess_refIndex (fun a b c hh => insert_subject_person_refIndex hh) d r) r2
  · intro d r r2
    exact subjectCharacterPasses_congr
      (relationProcess_refIndex (fun a b c hh => insert_subject_character_refIndex hh) d r) r2
  · intro d r r2
    exact personCharacterPasses_congr
      (relationProcess_refIndex (fun a b c hh => insert_person_character_refIndex hh) d r) r2

/-- Witness for C9: an entity cap of 1 over two subject lines takes
exactly the first line (only subject 10 is indexed); a relation cap of 1
over a filtered-out record followed by a passing record reads both
lines — the filtered record does not consume the cap. -/
theorem C9_witness :
    (1 : Nat) ≤ 1 ∧
    entityLoop _insert_a_subject sample_db0 0 (some 1) [some sampleSubjectX, some sampleSubjectY]
      = entityLoop _insert_a_subject sample_db0 0 none
          ([some sampleSubjectX, some sampleSubjectY].take 1) ∧
    dictLookup (10 : Int) (okOr sample_db0 (entityLoop _insert_a_subject sample_db0 0 (some 1)
      [some sampleSubjectX, some sampleSubjectY])).subject_category_mapping = some 2 ∧
    dictLookup (20 : Int) (okOr sample_db0 (entityLoop _insert_a_subject sample_db0 0 (some 1)
      [some sampleSubjectX, some sampleSubjectY])).subject_category_mapping = none ∧
    relationLoop subjectRelationPasses (_insert_a_subject_relation sampleConfig)
        subjectRelationLogEntry sample_dbXY 0 (some 1)
        [some { subject_id := 10, related_subject_id := 99, relation_type := 1 },
         some { subject_id := 10, related_subject_id := 20, relation_type := 1 }]
      = relationLoop subjectRelationPasses (_insert_a_subject_relation sampleConfig)
          subjectRelationLogEntry sample_dbXY 0 none
          (takeUptoNPassing subjectRelationPasses sample_dbXY 1
            [some { subject_id := 10, related_subject_id := 99, relation_type := 1 },
             some { subject_id := 10, related_subject_id := 20, relation_type := 1 }]) ∧
    takeUptoNPassing subjectRelationPasses sample_dbXY 1
        [some { subject_id := 10, related_subject_id := 99, relation_type := 1 },
         some { subject_id := 10, related_subject_id := 20, relation_type := 1 }]
      = [some { subject_id := 10, related_subject_id := 99, relation_type := 1 },
         some { subject_id := 10, related_subject_id := 20, relation_type := 1 }] := by
  refine ⟨by decide, ?_, by decide, by decide, ?_, by decide⟩
  · exact C9_record_caps_and_full_read.1 Subject _insert_a_subject sample_db0
      [some sampleSubjectX, some sampleSubjectY] 1 (by decide)
  · exact C9_record_caps_and_full_read.2.1 SubjectRelation subjectRelationPasses
      (_insert_a_subject_relation sampleConfig) subjectRelationLogEntry
      (C9_record_caps_and_full_read.2.2.2.2.1 sampleConfig) sample_dbXY
      [some { subject_id := 10, related_subject_id := 99, relation_type := 1 },
       some { subject_id := 10, related_subject_id := 20, relation_type := 1 }] 1 (by decide)

/- C10 development -/

lemma hasEdge_mergeEdge (g : Graph) (a b : Nat) (l : String)
    (hp : propsMatch [] ([] : List (String × Val)) = true) :
    (g.mergeEdge a b l []).hasEdge a b l [] = true := by
  unfold Graph.mergeEdge
  by_cases h : g.hasEdge a b l []
  · rw [if_pos h]; exact h
  · rw [if_neg h]
    unfold Graph.hasEdge
    simp [List.any_append, List.any_cons]
    exact Or.inr (by decide)

lemma countLabel_createNode_other (g : Graph) (lbl2 : String) (pr : List (String × Val))
    (lbl : String) (h : ¬ lbl2 = lbl) :
    countLabel (g.createNode lbl2 pr).1 lbl = countLabel g lbl := by
  unfold countLabel Graph.createNode
  simp [List.filter_append, List.filter, h]

lemma nodes_mergeEdge (g : Graph) (a b : Nat) (l : String) (p : List (String × Val)) :
    (g.mergeEdge a b l p).nodes = g.nodes := by
  unfold Graph.mergeEdge
  split <;> rfl

lemma countLabel_mergeEdge (g : Graph) (a b : Nat) (l : String) (p : List (String × Val))
    (lbl : String) : countLabel (g.mergeEdge a b l p) lbl = countLabel g lbl := by
  unfold countLabel
  rw [nodes_mergeEdge]

lemma matchNode_createNode_found {g : Graph} {lbl : String} {pat : List (String × Val)}
    {pn : Node} (lbl2 : String) (pr : List (String × Val))
    (h : g.matchNode lbl pat = some pn) :
    (g.createNode lbl2 pr).1.matchNode lbl pat = some pn := by
  unfold Graph.matchNode at h
  unfold Graph.createNode Graph.matchNode
  simp [List.find?_append, h]

theorem C10_platform_merged_by_subject_insert (db : BangumiDatabase) (s : Subject)
    (hn : s.nsfw = false) :
    (∀ pn, db.graph.matchNode "Platform"
          [("platform_id", .vInt s.platform), ("category", .vInt s.type)] = some pn →
        ∃ db2, _insert_a_subject db s = .ok db2 ∧
          countLabel db2.graph "Platform" = countLabel db.graph "Platform" ∧
          db2.graph.hasEdge db.graph.nextId pn.nid "BELONG_TO" [] = true) ∧
    (db.graph.matchNode "Platform"
          [("platform_id", .vInt s.platform), ("category", .vInt s.type)] = none →
        ∃ db2, _insert_a_subject db s = .ok db2 ∧
          (∃ pn, pn ∈ db2.graph.nodes ∧ pn.nlabel = "Platform" ∧
            pn.props = [("platform_id", .vInt s.platform), ("category", .vInt s.type)] ∧
            dictLookup "name" pn.props = none ∧
            db2.graph.hasEdge db.graph.nextId pn.nid "BELONG_TO" [] = true)) := by
  constructor
  · intro pn hm
    have hm1 := matchNode_createNode_found (g := db.graph)
      "Subject" [("subject_id", .vInt s.id), ("name", .vStr s.name),
        ("name_cn", .vStr s.name_cn), ("infobox", .vStr s.infobox),
        ("summary", .vStr s.summary), ("date", .vStr s.date),
        ("series", .vBool s.series), ("tags", .vList s.tags)] hm
    have hins : _insert_a_subject db s = .ok
        { subject_category_mapping := (s.id, s.type) :: db.subject_category_mapping
          subject_name_mapping := (s.id, s.name) :: db.subject_name_mapping
          person_id_set := db.person_id_set
          character_name_mapping := db.character_name_mapping
          graph := (db.graph.createNode "Subject"
              [("subject_id", .vInt s.id), ("name", .vStr s.name),
               ("name_cn", .vStr s.name_cn), ("infobox", .vStr s.infobox),
               ("summary", .vStr s.summary), ("date", .vStr s.date),
               ("series", .vBool s.series), ("tags", .vList s.tags)]).1.mergeEdge
            (db.graph.createNode "Subject"
              [("subject_id", .vInt s.id), ("name", .vStr s.name),
               ("name_cn", .vStr s.name_cn), ("infobox", .vStr s.infobox),
               ("summary", .vStr s.summary), ("date", .vStr s.date),
               ("series", .vBool s.series), ("tags", .vList s.tags)]).2
            pn.nid "BELONG_TO" []
          log := db.log } := by
      simp [_insert_a_subject, hn, Graph.mergeNode, hm1]
    refine ⟨_, hins, ?_, ?_⟩
    · rw [countLabel_mergeEdge]
      exact countLabel_createNode_other db.graph "Subject" _ "Platform" (by decide)
    · exact hasEdge_mergeEdge _ _ _ _ (by decide)
  · intro hm
    have hm1 := matchNode_createNode_other (g := db.graph)
      "Subject" [("subject_id", .vInt s.id), ("name", .vStr s.name),
        ("name_cn", .vStr s.name_cn), ("infobox", .vStr s.infobox),
        ("summary", .vStr s.summary), ("date", .vStr s.date),
        ("series", .vBool s.series), ("tags", .vList s.tags)] hm (by simp)
    have hins : _insert_a_subject db s = .ok
        { subject_category_mapping := (s.id, s.type) :: db.subject_category_mapping
          subject_name_mapping := (s.id, s.name) :: db.subject_name_mapping
          person_id_set := db.person_id_set
          character_name_mapping := db.character_name_mapping
          graph := ((db.graph.createNode "Subject"
              [("subject_id", .vInt s.id), ("name", .vStr s.name),
               ("name_cn", .vStr s.name_cn), ("infobox", .vStr s.infobox),
               ("summary", .vStr s.summary), ("date", .vStr s.date),
               ("series", .vBool s.series), ("tags", .vList s.tags)]).1.createNode
                "Platform" [("platform_id", .vInt s.platform), ("category", .vInt s.type)]).1.mergeEdge
            (db.graph.createNode "Subject"
              [("subject_id", .vInt s.id), ("name", .vStr s.name),
               ("name_cn", .vStr s.name_cn), ("infobox", .vStr s.infobox),
               ("summary", .vStr s.summary), ("date", .vStr s.date),
               ("series", .vBool s.series), ("tags", .vList s.tags)]).2
            ((db.graph.createNode "Subject"
              [("subject_id", .vInt s.id), ("name", .vStr s.name),
               ("name_cn", .vStr s.name_cn), ("infobox", .vStr s.infobox),
               ("summary", .vStr s.summary), ("date", .vStr s.date),
               ("series", .vBool s.series), ("tags", .vList s.tags)]).1.createNode
                "Platform" [("platform_id", .vInt s.platform), ("category", .vInt s.type)]).2
            "BELONG_TO" []
          log := db.log } := by
      simp [_insert_a_subject, hn, Graph.mergeNode, hm1]
    refine ⟨_, hins, ?_⟩
    refine ⟨{ nid := db.graph.nextId + 1, nlabel := "Platform",
              props := [("platform_id", .vInt s.platform), ("category", .vInt s.type)] },
            ?_, rfl, rfl, ?_, ?_⟩
    · rw [nodes_mergeEdge]
      unfold Graph.createNode
      simp
    · simp [dictLookup]
    · exact hasEdge_mergeEdge _ _ _ _ (by decide)

/-- State with one Platform node (platform 1, category 2) written by the
platform stage. -/
def sample_dbP : BangumiDatabase :=
  okOr sample_db0 (_insert_a_platform sample_db0 { id := 1, type_cn := "TV" } 2)

/-- Witness for C10: with a platform-stage node present, inserting
sampleSubjectX reuses it (no new Platform node, BELONG_TO attached);
on an empty store the same insert creates a Platform node that carries
no name property. -/
theorem C10_witness :
    sampleSubjectX.nsfw = false ∧
    sample_dbP.graph.matchNode "Platform"
        [("platform_id", .vInt sampleSubjectX.platform), ("category", .vInt sampleSubjectX.type)]
      = some { nid := 0, nlabel := "Platform",
               props := [("platform_id", .vInt 1), ("category", .vInt 2),
                         ("name", .vStr "动画/TV")] } ∧
    (∃ db2, _insert_a_subject sample_dbP sampleSubjectX = .ok db2 ∧
       countLabel db2.graph "Platform" = countLabel sample_dbP.graph "Platform" ∧
       db2.graph.hasEdge sample_dbP.graph.nextId 0 "BELONG_TO" [] = true) ∧
    sample_db0.graph.matchNode "Platform"
        [("platform_id", .vInt sampleSubjectX.platform),
         ("category", .vInt sampleSubjectX.type)] = none ∧
    (∃ db2, _insert_a_subject sample_db0 sampleSubjectX = .ok db2 ∧
       (∃ pn, pn ∈ db2.graph.nodes ∧ pn.nlabel = "Platform" ∧
         pn.props = [("platform_id", .vInt sampleSubjectX.platform),
                     ("category", .vInt sampleSubjectX.type)] ∧
         dictLookup "name" pn.props = none ∧
         db2.graph.hasEdge sample_db0.graph.nextId pn.nid "BELONG_TO" [] = true)) := by
  refine ⟨by decide, by decide, ?_, by decide, ?_⟩
  · exact (C10_platform_merged_by_subject_insert sample_dbP sampleSubjectX (by decide)).1
      { nid := 0, nlabel := "Platform",
        props := [("platform_id", .vInt 1), ("category", .vInt 2),
                  ("name", .vStr "动画/TV")] }
      (by decide)
  · exact (C10_platform_merged_by_subject_insert sample_db0 sampleSubjectX (by decide)).2
      (by decide)

/- C1 development -/

/-- The seven data files of the C1 run: two subjects, one person, two
characters, and two person-character triples with distinct
(character, subject) pairs. -/
def c1_data : RawData :=
  { subject := [some sampleSubjectX, some sampleSubjectY]
    person := [some samplePerson]
    character := [some sampleCharacterA, some sampleCharacterB]
    subject_relations := []
    subject_persons := []
    subject_characters := []
    person_characters := [some { person_id := 1, character_id := 1, subject_id := 10 },
                          some { person_id := 1, character_id := 2, subject_id := 20 }] }

/-- The same run with the first triple ingested twice instead. -/
def c1_data_dup : RawData :=
  { c1_data with
    person_characters := [some { person_id := 1, character_id := 1, subject_id := 10 },
                          some { person_id := 1, character_id := 1, subject_id := 10 }] }

/-- The role property of every RolePerformance node of a store. -/
def roleValues (g : Graph) : List (Option Val) :=
  (g.nodes.filter fun n => n.nlabel = "RolePerformance").map fun n => dictLookup "role" n.props

/-- C1 (code evaluated at the failing input): the role written by the
Cypher of `_insert_a_person_character_relation` is the uninterpolated
literal, identical for the pairs (A, X) and (B, Y); ingesting the two
distinct triples (person 1, character 1, subject 10) and (person 1,
character 2, subject 20) in a full pipeline run therefore merges onto a
single RolePerformance node whose role is the literal text, with both
AsCharacter edges hanging off that one node — the claim's
distinct-labels property fails, while the same-triple-twice part
(exactly one node) does hold. -/
theorem C1_role_label_is_literal_not_concatenation :
    rolePerformanceRole "A" "X" = rolePerformanceRole "B" "Y" ∧
    (initilize_database emptyConfig none none sample_db0 c1_data).isOk = true ∧
    countLabel (okOr sample_db0 (initilize_database emptyConfig none none sample_db0
      c1_data)).graph "RolePerformance" = 1 ∧
    roleValues (okOr sample_db0 (initilize_database emptyConfig none none sample_db0
      c1_data)).graph = [some (.vStr "$character_name in $subject_name")] ∧
    ((okOr sample_db0 (initilize_database emptyConfig none none sample_db0
      c1_data)).graph.edges.filter fun e => e.elabel = "AsCharacter").length = 2 ∧
    countLabel (okOr sample_db0 (initilize_database emptyConfig none none sample_db0
      c1_data_dup)).graph "RolePerformance" = 1 :=
  ⟨rfl, by decide, by decide, by decide, by decide, by decide⟩
